import Mathlib

/-!
Verification of the Rockchip OTP read engine (drivers/nvmem/rockchip-otp.c).

The driver is embedded shallowly:
* the OTP macro's readable cells are a byte image `fuse : List Nat`;
* every fallible external step (clock-group enable, reset assert/deassert,
  scratch allocation, each bounded poll of a status register, each ECC
  parity readback) is an oracle field of the `Hw` structure;
* each read engine is a pure function from the oracle and the request
  `(offset, bytes, caller buffer)` to a return code, the caller buffer
  after the call, and a trace of externally visible events (register
  writes, data-register reads, clock/reset/allocation operations).

Machine integers: the driver's u32 arithmetic never overflows for the
request ranges the claims quantify over, so `Nat` with explicit masks is
used.  The host is little-endian (the driver targets arm64), so
`memcpy(&buf[i], &out_value, n)` copies the n low-order bytes of the u32
in increasing significance; the model appends `v % 256, v / 256 % 256, …`.
-/

set_option maxRecDepth 8000

namespace RockchipOtp

/-! Register offsets, bits and masks, verbatim from the driver header block. -/

def OTPC_SBPI_CTRL : Nat := 0x0020
def OTPC_SBPI_CMD_VALID_PRE : Nat := 0x0024
def OTPC_SBPI_CS_VALID_PRE : Nat := 0x0028
def OTPC_SBPI_STATUS : Nat := 0x002C
def OTPC_USER_CTRL : Nat := 0x0100
def OTPC_USER_ADDR : Nat := 0x0104
def OTPC_USER_ENABLE : Nat := 0x0108
def OTPC_USER_QP : Nat := 0x0120
def OTPC_USER_Q : Nat := 0x0124
def OTPC_INT_STATUS : Nat := 0x0304
def OTPC_SBPI_CMD0_OFFSET : Nat := 0x1000
def OTPC_SBPI_CMD1_OFFSET : Nat := 0x1004

def OTPC_USER_ADDR_MASK : Nat := 0xFFFF0000
def OTPC_USE_USER : Nat := 0x1
def OTPC_USE_USER_MASK : Nat := 0x10000
def OTPC_USER_FSM_ENABLE : Nat := 0x1
def OTPC_USER_FSM_ENABLE_MASK : Nat := 0x10000
def OTPC_SBPI_DONE : Nat := 0x2
def OTPC_USER_DONE : Nat := 0x4

def SBPI_DAP_ADDR : Nat := 0x02
def SBPI_DAP_ADDR_SHIFT : Nat := 8
def SBPI_DAP_ADDR_MASK : Nat := 0xFF000000
def SBPI_CMD_VALID_MASK : Nat := 0xFFFF0000
def SBPI_DAP_CMD_WRF : Nat := 0xC0
def SBPI_DAP_REG_ECC : Nat := 0x3A
def SBPI_ECC_ENABLE : Nat := 0x00
def SBPI_ECC_DISABLE : Nat := 0x09
def SBPI_ENABLE : Nat := 0x1
def SBPI_ENABLE_MASK : Nat := 0x10000

def OTPC_TIMEOUT : Nat := 10000

def RK3568_NBYTES : Nat := 2

def RK3588_OTPC_AUTO_CTRL : Nat := 0x004
def RK3588_OTPC_AUTO_EN : Nat := 0x008
def RK3588_OTPC_INT_ST : Nat := 0x084
def RK3588_OTPC_DOUT0 : Nat := 0x020
def RK3588_NO_SECURE_OFFSET : Nat := 0x300
def RK3588_NBYTES : Nat := 4
def RK3588_BURST_NUM : Nat := 1
def RK3588_BURST_SHIFT : Nat := 8
def RK3588_ADDR_SHIFT : Nat := 16
def RK3588_AUTO_EN : Nat := 0x1
def RK3588_RD_DONE : Nat := 0x2

/-- Linux `rounddown(x, y)`: `(x) - ((x) % (y))`. -/
def rounddown (x y : Nat) : Nat := x - x % y

/-- Linux `roundup(x, y)`: `((((x) + (y) - 1) / (y)) * (y))`. -/
def roundup (x y : Nat) : Nat := (x + y - 1) / y * y

/-- Externally visible events of one read: register writes (`wr off v`),
data/parity register reads (`rd off`), clock-group enable/disable,
reset assert/deassert (recorded when the call succeeds), scratch
allocation and free. Status-register polling reads are not recorded. -/
inductive Ev : Type
  | clkEn : Ev
  | clkDis : Ev
  | rstAssert : Ev
  | rstDeassert : Ev
  | alloc : Ev
  | free : Ev
  | wr : Nat → Nat → Ev
  | rd : Nat → Ev
deriving DecidableEq

/-- The hardware/externals oracle for one read call.
`fuse` is the byte image of the readable OTP cells; `size` is the
descriptor's fuse size (`otp->data->size`).  `sbpiStat`, `userStat i`,
`autoStat i` give the value of the interrupt-status register at each
1 µs sample of the corresponding bounded poll (the user/auto polls are
indexed by loop iteration `i`).  `qp i` is the OTPC_USER_QP parity
readback at iteration `i` of the rk3568 loop. -/
structure Hw : Type where
  fuse : List Nat
  size : Nat
  clkRet : Int
  rstAssertRet : Int
  rstDeassertRet : Int
  allocOk : Bool
  sbpiStat : Nat → Nat
  userStat : Nat → Nat → Nat
  qp : Nat → Nat
  autoStat : Nat → Nat → Nat

/-- Result of a read engine: the C return value, the caller's buffer
after the call, and the event trace. -/
structure ReadOut : Type where
  ret : Int
  val : List Nat
  trace : List Ev

/-- Byte of the fuse image at index `i` (reads past the image return 0,
matching a device readback of unprogrammed cells; the claims never
depend on those bytes). -/
def byteAt (l : List Nat) (i : Nat) : Nat := l.getD i 0

/-- `readl_poll_timeout_atomic(…, status, (status & flag), 1, OTPC_TIMEOUT)`:
samples the status word once per microsecond and succeeds iff some sample
within the 10000 µs cap has a bit of `flag` set. -/
def pollOk (stat : Nat → Nat) (flag : Nat) : Bool :=
  (List.range' 0 (OTPC_TIMEOUT + 1)).any fun t => stat t &&& flag != 0

/-- Common body of `px30_otp_wait_status` / `rk3588_otp_wait_status`:
bounded poll of the interrupt-status register at `reg`; on success the
sticky status is cleared by writing `flag` back. -/
def otp_wait_status (stat : Nat → Nat) (reg flag : Nat) : Int × List Ev :=
  if pollOk stat flag then (0, [Ev.wr reg flag]) else (-110, [])

/-- `px30_otp_wait_status`: poll OTPC_INT_STATUS, clear on success. -/
def px30_otp_wait_status (stat : Nat → Nat) (flag : Nat) : Int × List Ev :=
  otp_wait_status stat OTPC_INT_STATUS flag

/-- `rk3588_otp_wait_status`: poll RK3588_OTPC_INT_ST, clear on success. -/
def rk3588_otp_wait_status (stat : Nat → Nat) (flag : Nat) : Int × List Ev :=
  otp_wait_status stat RK3588_OTPC_INT_ST flag

/-- `rockchip_otp_reset`: assert the reset line, wait 2 µs, deassert.
An event is recorded for each call that succeeds. -/
def rockchip_otp_reset (hw : Hw) : Int × List Ev :=
  if hw.rstAssertRet ≠ 0 then (hw.rstAssertRet, [])
  else if hw.rstDeassertRet ≠ 0 then (hw.rstDeassertRet, [Ev.rstAssert])
  else (0, [Ev.rstAssert, Ev.rstDeassert])

/-- The five SBPI command writes of `px30_otp_ecc_enable`, before the poll. -/
def sbpiCmdSeq (enable : Bool) : List Ev :=
  [Ev.wr OTPC_SBPI_CTRL (SBPI_DAP_ADDR_MASK ||| (SBPI_DAP_ADDR <<< SBPI_DAP_ADDR_SHIFT)),
   Ev.wr OTPC_SBPI_CMD_VALID_PRE (SBPI_CMD_VALID_MASK ||| 0x1),
   Ev.wr OTPC_SBPI_CMD0_OFFSET (SBPI_DAP_CMD_WRF ||| SBPI_DAP_REG_ECC),
   Ev.wr OTPC_SBPI_CMD1_OFFSET (if enable then SBPI_ECC_ENABLE else SBPI_ECC_DISABLE),
   Ev.wr OTPC_SBPI_CTRL (SBPI_ENABLE_MASK ||| SBPI_ENABLE)]

/-- `px30_otp_ecc_enable`: issue the SBPI command sequence, then wait for
OTPC_SBPI_DONE. -/
def px30_otp_ecc_enable (hw : Hw) (enable : Bool) : Int × List Ev :=
  let w := px30_otp_wait_status hw.sbpiStat OTPC_SBPI_DONE
  (w.1, sbpiCmdSeq enable ++ w.2)

/-- The `while (bytes--)` loop of `px30_otp_read`: one byte per iteration,
written directly into the caller's buffer (`*buf++ = readb(...)`); the
returned list is the sequence of bytes written so far when the loop stops.
`a` is the current byte address, `i` the iteration index. -/
def px30_otp_read_loop (hw : Hw) : Nat → Nat → Nat → Int × List Nat × List Ev
  | 0, _, _ => (0, [], [])
  | n+1, a, i =>
    let t1 : List Ev :=
      [Ev.wr OTPC_USER_ADDR (a ||| OTPC_USER_ADDR_MASK),
       Ev.wr OTPC_USER_ENABLE (OTPC_USER_FSM_ENABLE ||| OTPC_USER_FSM_ENABLE_MASK)]
    let w := px30_otp_wait_status (hw.userStat i) OTPC_USER_DONE
    if w.1 < 0 then (w.1, [], t1 ++ w.2)
    else
      let b := byteAt hw.fuse a
      let rest := px30_otp_read_loop hw n (a+1) (i+1)
      (rest.1, b :: rest.2.1, t1 ++ w.2 ++ Ev.rd OTPC_USER_Q :: rest.2.2)

/-- `px30_otp_read` (GEN-A): clocks, reset, ECC disable via SBPI, select
the user interface, read byte by byte, clear the selection, release
clocks.  The caller's buffer is written in place from position 0. -/
def px30_otp_read (hw : Hw) (offset bytes : Nat) (val : List Nat) : ReadOut :=
  if hw.clkRet < 0 then ⟨hw.clkRet, val, []⟩
  else
    let r := rockchip_otp_reset hw
    if r.1 ≠ 0 then ⟨r.1, val, Ev.clkEn :: r.2 ++ [Ev.clkDis]⟩
    else
      let e := px30_otp_ecc_enable hw false
      if e.1 < 0 then ⟨e.1, val, Ev.clkEn :: r.2 ++ e.2 ++ [Ev.clkDis]⟩
      else
        let L := px30_otp_read_loop hw bytes offset 0
        ⟨L.1, L.2.1 ++ val.drop L.2.1.length,
         Ev.clkEn :: r.2 ++ e.2
           ++ Ev.wr OTPC_USER_CTRL (OTPC_USE_USER ||| OTPC_USE_USER_MASK) :: L.2.2
           ++ [Ev.wr OTPC_USER_CTRL OTPC_USE_USER_MASK, Ev.clkDis]⟩

/-- ECC flag test of the rk3568 loop:
`((otp_qp & 0xc0) == 0xc0) || (otp_qp & 0x20)`. -/
def eccBad (q : Nat) : Bool := (q &&& 0xc0 == 0xc0) || (q &&& 0x20 != 0)

/-- 32-bit OTPC_USER_Q readback for 16-bit word address `a`: the two
image bytes of the word, little-endian (only the low RK3568_NBYTES = 2
bytes are ever copied out). -/
def user_q_word (fuse : List Nat) (a : Nat) : Nat :=
  byteAt fuse (2*a) + 256 * byteAt fuse (2*a+1)

/-- The `while (addr_len--)` loop of `rk3568_otp_read`: per word, program
the address, pulse the FSM, poll, check the QP parity readback, read the
data word and append its low two bytes to the scratch.  Returns the
scratch bytes written so far when the loop stops. -/
def rk3568_otp_read_loop (hw : Hw) : Nat → Nat → Nat → Int × List Nat × List Ev
  | 0, _, _ => (0, [], [])
  | n+1, a, i =>
    let t1 : List Ev :=
      [Ev.wr OTPC_USER_ADDR (a ||| OTPC_USER_ADDR_MASK),
       Ev.wr OTPC_USER_ENABLE (OTPC_USER_FSM_ENABLE ||| OTPC_USER_FSM_ENABLE_MASK)]
    let w := px30_otp_wait_status (hw.userStat i) OTPC_USER_DONE
    if w.1 < 0 then (w.1, [], t1 ++ w.2)
    else if eccBad (hw.qp i) then (-5, [], t1 ++ w.2 ++ [Ev.rd OTPC_USER_QP])
    else
      let v := user_q_word hw.fuse a
      let rest := rk3568_otp_read_loop hw n (a+1) (i+1)
      (rest.1, v % 256 :: v / 256 % 256 :: rest.2.1,
       t1 ++ w.2 ++ Ev.rd OTPC_USER_QP :: Ev.rd OTPC_USER_Q :: rest.2.2)

/-- `addr_start = rounddown(offset, RK3568_NBYTES) / RK3568_NBYTES`. -/
def rk3568_addr_start (offset : Nat) : Nat :=
  rounddown offset RK3568_NBYTES / RK3568_NBYTES

/-- `addr_end = roundup(offset + bytes, RK3568_NBYTES) / RK3568_NBYTES`. -/
def rk3568_addr_end (offset bytes : Nat) : Nat :=
  roundup (offset + bytes) RK3568_NBYTES / RK3568_NBYTES

/-- `addr_offset = offset % RK3568_NBYTES`. -/
def rk3568_addr_offset (offset : Nat) : Nat := offset % RK3568_NBYTES

/-- `addr_len = addr_end - addr_start`. -/
def rk3568_addr_len (offset bytes : Nat) : Nat :=
  rk3568_addr_end offset bytes - rk3568_addr_start offset

/-- `rk3568_otp_read` (GEN-B): word-granular read with ECC enabled; the
requested byte range is carved out of the enclosing word range.  The
caller's buffer is only written by the final `memcpy` on the success
path. -/
def rk3568_otp_read (hw : Hw) (offset bytes : Nat) (val : List Nat) : ReadOut :=
  let addr_start := rk3568_addr_start offset
  let addr_offset := rk3568_addr_offset offset
  let addr_len := rk3568_addr_len offset bytes
  if !hw.allocOk then ⟨-12, val, []⟩
  else if hw.clkRet < 0 then ⟨hw.clkRet, val, [Ev.alloc, Ev.free]⟩
  else
    let r := rockchip_otp_reset hw
    if r.1 ≠ 0 then ⟨r.1, val, Ev.alloc :: Ev.clkEn :: r.2 ++ [Ev.clkDis, Ev.free]⟩
    else
      let e := px30_otp_ecc_enable hw true
      if e.1 < 0 then
        ⟨e.1, val, Ev.alloc :: Ev.clkEn :: r.2 ++ e.2 ++ [Ev.clkDis, Ev.free]⟩
      else
        let L := rk3568_otp_read_loop hw addr_len addr_start 0
        let tr := Ev.alloc :: Ev.clkEn :: r.2 ++ e.2
          ++ Ev.wr OTPC_USER_CTRL (OTPC_USE_USER ||| OTPC_USE_USER_MASK) :: L.2.2
          ++ [Ev.wr OTPC_USER_CTRL OTPC_USE_USER_MASK, Ev.clkDis, Ev.free]
        if L.1 < 0 then ⟨L.1, val, tr⟩
        else ⟨L.1, (L.2.1.drop addr_offset).take bytes ++ val.drop bytes, tr⟩

/-- 32-bit RK3588_OTPC_DOUT0 readback after auto-reading word address `a`:
the auto-sequencer address space maps the fuse image at word offset
RK3588_NO_SECURE_OFFSET (the non-secure window), little-endian. -/
def rk3588_dout (fuse : List Nat) (a : Nat) : Nat :=
  byteAt fuse (4*(a - RK3588_NO_SECURE_OFFSET))
    + 256 * byteAt fuse (4*(a - RK3588_NO_SECURE_OFFSET) + 1)
    + 65536 * byteAt fuse (4*(a - RK3588_NO_SECURE_OFFSET) + 2)
    + 16777216 * byteAt fuse (4*(a - RK3588_NO_SECURE_OFFSET) + 3)

/-- The `while (addr_len--)` loop of `rk3588_otp_read`: per word, program
`(addr << 16) | (1 << 8)` into the auto-control register, pulse auto-enable,
poll for RD_DONE, read DOUT0 and append its four bytes to the scratch.
`r0` is the value the C variable `ret` holds on loop entry (returned
unchanged when the loop runs zero iterations). -/
def rk3588_otp_read_loop (hw : Hw) (r0 : Int) : Nat → Nat → Nat → Int × List Nat × List Ev
  | 0, _, _ => (r0, [], [])
  | n+1, a, i =>
    let t1 : List Ev :=
      [Ev.wr RK3588_OTPC_AUTO_CTRL
         ((a <<< RK3588_ADDR_SHIFT) ||| (RK3588_BURST_NUM <<< RK3588_BURST_SHIFT)),
       Ev.wr RK3588_OTPC_AUTO_EN RK3588_AUTO_EN]
    let w := rk3588_otp_wait_status (hw.autoStat i) RK3588_RD_DONE
    if w.1 < 0 then (w.1, [], t1 ++ w.2)
    else
      let v := rk3588_dout hw.fuse a
      let rest := rk3588_otp_read_loop hw w.1 n (a+1) (i+1)
      (rest.1, v % 256 :: v / 256 % 256 :: v / 65536 % 256 :: v / 16777216 % 256 :: rest.2.1,
       t1 ++ w.2 ++ Ev.rd RK3588_OTPC_DOUT0 :: rest.2.2)

/-- `rk3588_otp_read` (GEN-C): bounds check against the descriptor size
(with clamping), word-granular auto-burst read through the non-secure
window, no per-request reset.  The caller's buffer is only written by the
final `memcpy` on the success path. -/
def rk3588_clamp (size offset bytes0 : Nat) : Nat :=
  if offset + bytes0 > size then size - offset else bytes0

/-- `addr_start = rounddown(offset, RK3588_NBYTES) / RK3588_NBYTES`
(value before `addr_start += RK3588_NO_SECURE_OFFSET`). -/
def rk3588_addr_start0 (offset : Nat) : Nat :=
  rounddown offset RK3588_NBYTES / RK3588_NBYTES

/-- `addr_end = roundup(offset + bytes, RK3588_NBYTES) / RK3588_NBYTES`. -/
def rk3588_addr_end (offset bytes : Nat) : Nat :=
  roundup (offset + bytes) RK3588_NBYTES / RK3588_NBYTES

/-- `addr_offset = offset % RK3588_NBYTES`. -/
def rk3588_addr_offset (offset : Nat) : Nat := offset % RK3588_NBYTES

/-- `addr_len = addr_end - addr_start` (before the non-secure shift). -/
def rk3588_addr_len (offset bytes : Nat) : Nat :=
  rk3588_addr_end offset bytes - rk3588_addr_start0 offset

def rk3588_otp_read (hw : Hw) (offset bytes0 : Nat) (val : List Nat) : ReadOut :=
  if offset ≥ hw.size then ⟨-12, val, []⟩
  else
    let bytes := rk3588_clamp hw.size offset bytes0
    let addr_offset := rk3588_addr_offset offset
    let addr_len := rk3588_addr_len offset bytes
    let addr_start := rk3588_addr_start0 offset + RK3588_NO_SECURE_OFFSET
    if !hw.allocOk then ⟨-12, val, []⟩
    else if hw.clkRet < 0 then ⟨hw.clkRet, val, [Ev.alloc, Ev.free]⟩
    else
      let L := rk3588_otp_read_loop hw hw.clkRet addr_len addr_start 0
      let tr := Ev.alloc :: Ev.clkEn :: L.2.2 ++ [Ev.clkDis, Ev.free]
      if L.1 < 0 then ⟨L.1, val, tr⟩
      else ⟨L.1, (L.2.1.drop addr_offset).take bytes ++ val.drop bytes, tr⟩

/-! General helper lemmas about `byteAt`, `List.range'` and slicing. -/

lemma byteAt_eq_getElem (l : List Nat) (i : Nat) (h : i < l.length) :
    byteAt l i = l[i] := by
  simp [byteAt, List.getD_eq_getElem?_getD, List.getElem?_eq_getElem h]

lemma byteAt_lt (l : List Nat) (hB : ∀ b ∈ l, b < 256) (i : Nat) :
    byteAt l i < 256 := by
  rcases Nat.lt_or_ge i l.length with h | h
  · rw [byteAt_eq_getElem l i h]
    exact hB _ (List.getElem_mem h)
  · simp [byteAt, List.getD_eq_getElem?_getD, List.getElem?_eq_none h]

lemma range'_drop : ∀ (j s k : Nat), (List.range' s k).drop j = List.range' (s + j) (k - j) := by
  intro j
  induction j with
  | zero => intro s k; simp
  | succ j ih =>
    intro s k
    cases k with
    | zero => simp
    | succ k =>
      rw [List.range'_succ, List.drop_succ_cons, ih (s+1) k]
      congr 1 <;> omega

lemma range'_take : ∀ (m s k : Nat), m ≤ k → (List.range' s k).take m = List.range' s m := by
  intro m
  induction m with
  | zero => intro s k _; simp
  | succ m ih =>
    intro s k h
    cases k with
    | zero => omega
    | succ k =>
      rw [List.range'_succ, List.take_succ_cons, ih (s+1) k (by omega), List.range'_succ]

lemma slice_eq (l : List Nat) (s k : Nat) (h : s + k ≤ l.length) :
    (List.range' s k).map (byteAt l) = (l.drop s).take k := by
  apply List.ext_getElem
  · simp
    omega
  · intro i h1 h2
    simp only [List.getElem_map, List.getElem_range', one_mul, List.getElem_take,
      List.getElem_drop]
    have hi : i < k := by simpa using h1
    rw [byteAt_eq_getElem l (s + i) (by omega)]

lemma slice_extract (l : List Nat) (s k d b : Nat) (hb : d + b ≤ k)
    (hlen : s + d + b ≤ l.length) :
    (((List.range' s k).map (byteAt l)).drop d).take b = (l.drop (s + d)).take b := by
  rw [← List.map_drop, range'_drop, ← List.map_take, range'_take b (s + d) (k - d) (by omega),
    slice_eq l (s + d) b hlen]

/-! Characterization of the bounded polls on the success/failure side. -/

lemma wait_ok (stat : Nat → Nat) (flag : Nat) (h : pollOk stat flag = true) :
    px30_otp_wait_status stat flag = (0, [Ev.wr OTPC_INT_STATUS flag]) := by
  simp [px30_otp_wait_status, otp_wait_status, h]

lemma wait_fail (stat : Nat → Nat) (flag : Nat) (h : pollOk stat flag = false) :
    px30_otp_wait_status stat flag = (-110, []) := by
  simp [px30_otp_wait_status, otp_wait_status, h]

lemma wait3588_ok (stat : Nat → Nat) (flag : Nat) (h : pollOk stat flag = true) :
    rk3588_otp_wait_status stat flag = (0, [Ev.wr RK3588_OTPC_INT_ST flag]) := by
  simp [rk3588_otp_wait_status, otp_wait_status, h]

lemma wait3588_fail (stat : Nat → Nat) (flag : Nat) (h : pollOk stat flag = false) :
    rk3588_otp_wait_status stat flag = (-110, []) := by
  simp [rk3588_otp_wait_status, otp_wait_status, h]

/-! Loop characterizations when no hardware step fails: return code 0 and
the collected bytes are the image bytes of the traversed address range. -/

lemma px30_loop_ok (hw : Hw) (hU : ∀ k, pollOk (hw.userStat k) OTPC_USER_DONE = true) :
    ∀ n a i, (px30_otp_read_loop hw n a i).1 = 0 ∧
      (px30_otp_read_loop hw n a i).2.1 = (List.range' a n).map (byteAt hw.fuse) := by
  intro n
  induction n with
  | zero => intro a i; simp [px30_otp_read_loop]
  | succ n ih =>
    intro a i
    have hwt := wait_ok _ _ (hU i)
    have h1 := (ih (a+1) (i+1)).1
    have h2 := (ih (a+1) (i+1)).2
    simp [px30_otp_read_loop, hwt, h1, h2, List.range'_succ]

lemma rk3568_loop_ok (hw : Hw) (hU : ∀ k, pollOk (hw.userStat k) OTPC_USER_DONE = true)
    (hQ : ∀ k, eccBad (hw.qp k) = false) (hB : ∀ x ∈ hw.fuse, x < 256) :
    ∀ n a i, (rk3568_otp_read_loop hw n a i).1 = 0 ∧
      (rk3568_otp_read_loop hw n a i).2.1 = (List.range' (2*a) (2*n)).map (byteAt hw.fuse) := by
  intro n
  induction n with
  | zero => intro a i; simp [rk3568_otp_read_loop]
  | succ n ih =>
    intro a i
    have hwt := wait_ok _ _ (hU i)
    have hb0 := byteAt_lt hw.fuse hB (2*a)
    have hb1 := byteAt_lt hw.fuse hB (2*a+1)
    have hv0 : user_q_word hw.fuse a % 256 = byteAt hw.fuse (2*a) := by
      unfold user_q_word; omega
    have hv1 : user_q_word hw.fuse a / 256 % 256 = byteAt hw.fuse (2*a+1) := by
      unfold user_q_word; omega
    have hr : List.range' (2*a) (2*(n+1)) = 2*a :: (2*a+1) :: List.range' (2*(a+1)) (2*n) := by
      rw [show 2*(n+1) = (2*n+1)+1 from by ring, List.range'_succ, List.range'_succ,
        show 2*a+1+1 = 2*(a+1) from by ring]
    have h1 := (ih (a+1) (i+1)).1
    have h2 := (ih (a+1) (i+1)).2
    simp [rk3568_otp_read_loop, hwt, hQ i, hv0, hv1, hr, h1, h2]

lemma rk3588_loop_ok (hw : Hw) (hA : ∀ k, pollOk (hw.autoStat k) RK3588_RD_DONE = true)
    (hB : ∀ x ∈ hw.fuse, x < 256) :
    ∀ n w i, (rk3588_otp_read_loop hw 0 n (w + RK3588_NO_SECURE_OFFSET) i).1 = 0 ∧
      (rk3588_otp_read_loop hw 0 n (w + RK3588_NO_SECURE_OFFSET) i).2.1
        = (List.range' (4*w) (4*n)).map (byteAt hw.fuse) := by
  intro n
  induction n with
  | zero => intro w i; simp [rk3588_otp_read_loop]
  | succ n ih =>
    intro w i
    have hwt := wait3588_ok _ _ (hA i)
    have hsub : w + RK3588_NO_SECURE_OFFSET - RK3588_NO_SECURE_OFFSET = w := by omega
    have hb0 := byteAt_lt hw.fuse hB (4*w)
    have hb1 := byteAt_lt hw.fuse hB (4*w+1)
    have hb2 := byteAt_lt hw.fuse hB (4*w+2)
    have hb3 := byteAt_lt hw.fuse hB (4*w+3)
    have hv0 : rk3588_dout hw.fuse (w + RK3588_NO_SECURE_OFFSET) % 256 = byteAt hw.fuse (4*w) := by
      unfold rk3588_dout; rw [hsub]; omega
    have hv1 : rk3588_dout hw.fuse (w + RK3588_NO_SECURE_OFFSET) / 256 % 256
        = byteAt hw.fuse (4*w+1) := by
      unfold rk3588_dout; rw [hsub]; omega
    have hv2 : rk3588_dout hw.fuse (w + RK3588_NO_SECURE_OFFSET) / 65536 % 256
        = byteAt hw.fuse (4*w+2) := by
      unfold rk3588_dout; rw [hsub]; omega
    have hv3 : rk3588_dout hw.fuse (w + RK3588_NO_SECURE_OFFSET) / 16777216 % 256
        = byteAt hw.fuse (4*w+3) := by
      unfold rk3588_dout; rw [hsub]; omega
    have hnext : w + RK3588_NO_SECURE_OFFSET + 1 = (w+1) + RK3588_NO_SECURE_OFFSET := by omega
    have hr : List.range' (4*w) (4*(n+1))
        = 4*w :: (4*w+1) :: (4*w+2) :: (4*w+3) :: List.range' (4*(w+1)) (4*n) := by
      rw [show 4*(n+1) = (4*n+3)+1 from by ring, List.range'_succ, List.range'_succ,
        List.range'_succ, List.range'_succ,
        show 4*w+1+1+1+1 = 4*(w+1) from by ring]
    have h1 := (ih (w+1) (i+1)).1
    have h2 := (ih (w+1) (i+1)).2
    simp [rk3588_otp_read_loop, hwt, hv0, hv1, hv2, hv3, hr, hnext, h1, h2]

/-! Word/byte address arithmetic of the two word-granular engines. -/

lemma rk3568_arith (o b : Nat) :
    2 * rk3568_addr_start o + rk3568_addr_offset o = o ∧
    rk3568_addr_offset o + b ≤ 2 * rk3568_addr_len o b := by
  unfold rk3568_addr_start rk3568_addr_offset rk3568_addr_len rk3568_addr_end
    rk3568_addr_start rounddown roundup RK3568_NBYTES
  omega

lemma rk3588_arith (o b : Nat) :
    4 * rk3588_addr_start0 o + rk3588_addr_offset o = o ∧
    rk3588_addr_offset o + b ≤ 4 * rk3588_addr_len o b := by
  unfold rk3588_addr_start0 rk3588_addr_offset rk3588_addr_len rk3588_addr_end
    rk3588_addr_start0 rounddown roundup RK3588_NBYTES
  omega

/-- Claim C1: for every generation engine (GEN-A `px30_otp_read`, GEN-B
`rk3568_otp_read`, GEN-C `rk3588_otp_read`) and every request with
`offset + len ≤ size`, when no hardware step fails the bytes delivered to
the caller's buffer equal the fuse image's slice `[offset, offset+len)`,
regardless of word alignment (the caller's buffer beyond `len` is left
untouched; for GEN-C the return code is 0 whenever `offset < size`, and
the size-bound is the descriptor size `hw.size`). -/
theorem claim_C1_slicing :
    (∀ (hw : Hw) (o n : Nat) (val : List Nat),
        hw.clkRet = 0 → hw.rstAssertRet = 0 → hw.rstDeassertRet = 0 →
        pollOk hw.sbpiStat OTPC_SBPI_DONE = true →
        (∀ k, pollOk (hw.userStat k) OTPC_USER_DONE = true) →
        o + n ≤ hw.fuse.length →
        (px30_otp_read hw o n val).ret = 0 ∧
        (px30_otp_read hw o n val).val = (hw.fuse.drop o).take n ++ val.drop n)
  ∧ (∀ (hw : Hw) (o n : Nat) (val : List Nat),
        hw.allocOk = true → hw.clkRet = 0 → hw.rstAssertRet = 0 → hw.rstDeassertRet = 0 →
        pollOk hw.sbpiStat OTPC_SBPI_DONE = true →
        (∀ k, pollOk (hw.userStat k) OTPC_USER_DONE = true) →
        (∀ k, eccBad (hw.qp k) = false) →
        (∀ x ∈ hw.fuse, x < 256) →
        o + n ≤ hw.fuse.length →
        (rk3568_otp_read hw o n val).ret = 0 ∧
        (rk3568_otp_read hw o n val).val = (hw.fuse.drop o).take n ++ val.drop n)
  ∧ (∀ (hw : Hw) (o n : Nat) (val : List Nat),
        hw.allocOk = true → hw.clkRet = 0 →
        (∀ k, pollOk (hw.autoStat k) RK3588_RD_DONE = true) →
        (∀ x ∈ hw.fuse, x < 256) →
        o + n ≤ hw.size → hw.size ≤ hw.fuse.length →
        (rk3588_otp_read hw o n val).val = (hw.fuse.drop o).take n ++ val.drop n ∧
        (o < hw.size → (rk3588_otp_read hw o n val).ret = 0)) := by
  refine ⟨?_, ?_, ?_⟩
  · intro hw o n val hC h1 h2 hS hU hLen
    have hre : rockchip_otp_reset hw = (0, [Ev.rstAssert, Ev.rstDeassert]) := by
      simp [rockchip_otp_reset, h1, h2]
    have hecc : px30_otp_ecc_enable hw false
        = (0, sbpiCmdSeq false ++ [Ev.wr OTPC_INT_STATUS OTPC_SBPI_DONE]) := by
      simp [px30_otp_ecc_enable, wait_ok _ _ hS]
    have hloop := px30_loop_ok hw hU n o 0
    constructor
    · simp [px30_otp_read, hC, hre, hecc, hloop.1]
    · simp [px30_otp_read, hC, hre, hecc, hloop.1, hloop.2]
      rw [slice_eq hw.fuse o n hLen]
  · intro hw o n val hA hC h1 h2 hS hU hQ hB hLen
    have hre : rockchip_otp_reset hw = (0, [Ev.rstAssert, Ev.rstDeassert]) := by
      simp [rockchip_otp_reset, h1, h2]
    have hecc : px30_otp_ecc_enable hw true
        = (0, sbpiCmdSeq true ++ [Ev.wr OTPC_INT_STATUS OTPC_SBPI_DONE]) := by
      simp [px30_otp_ecc_enable, wait_ok _ _ hS]
    have hloop := rk3568_loop_ok hw hU hQ hB (rk3568_addr_len o n) (rk3568_addr_start o) 0
    have har := rk3568_arith o n
    constructor
    · simp [rk3568_otp_read, hA, hC, hre, hecc, hloop.1]
    · simp [rk3568_otp_read, hA, hC, hre, hecc, hloop.1, hloop.2]
      rw [slice_extract hw.fuse (2 * rk3568_addr_start o) (2 * rk3568_addr_len o n)
        (rk3568_addr_offset o) n har.2 (by omega), show 2 * rk3568_addr_start o
        + rk3568_addr_offset o = o from har.1]
  · intro hw o n val hA hC hAuto hB hLen hSize
    rcases Nat.lt_or_ge o hw.size with ho | ho
    · have hcl : rk3588_clamp hw.size o n = n := by
        simp [rk3588_clamp, show ¬ (hw.size < o + n) from by omega]
      have hloop := rk3588_loop_ok hw hAuto hB (rk3588_addr_len o n) (rk3588_addr_start0 o) 0
      have har := rk3588_arith o n
      constructor
      · simp [rk3588_otp_read, show ¬ (o ≥ hw.size) from by omega, hA, hC, hcl,
          hloop.1, hloop.2]
        rw [slice_extract hw.fuse (4 * rk3588_addr_start0 o) (4 * rk3588_addr_len o n)
          (rk3588_addr_offset o) n har.2 (by omega), show 4 * rk3588_addr_start0 o
          + rk3588_addr_offset o = o from har.1]
      · intro _
        simp [rk3588_otp_read, show ¬ (o ≥ hw.size) from by omega, hA, hC, hcl, hloop.1]
    · have hn : n = 0 := by omega
      constructor
      · simp [rk3588_otp_read, show o ≥ hw.size from ho, hn]
      · intro hlt
        omega

/-- Concrete oracle with an 8-byte fuse image and no hardware failure. -/
def hwGood : Hw :=
  ⟨[0x11, 0x22, 0x33, 0x44, 0x55, 0x66, 0x77, 0x88], 8, 0, 0, 0, true,
   fun _ => 255, fun _ _ => 255, fun _ => 0, fun _ _ => 255⟩

/-- Witness for C1: scenario S1 (GEN-A, offset 2, length 3), an unaligned
GEN-B read (offset 1, length 4) and an unaligned GEN-C read (offset 2,
length 4) on the concrete image. -/
theorem claim_C1_slicing_witness :
    ((px30_otp_read hwGood 2 3 [0, 0, 0]).ret = 0 ∧
      (px30_otp_read hwGood 2 3 [0, 0, 0]).val
        = (hwGood.fuse.drop 2).take 3 ++ ([0, 0, 0] : List Nat).drop 3) ∧
    ((rk3568_otp_read hwGood 1 4 [0, 0, 0, 0]).ret = 0 ∧
      (rk3568_otp_read hwGood 1 4 [0, 0, 0, 0]).val
        = (hwGood.fuse.drop 1).take 4 ++ ([0, 0, 0, 0] : List Nat).drop 4) ∧
    ((rk3588_otp_read hwGood 2 4 [9, 9, 9, 9]).val
        = (hwGood.fuse.drop 2).take 4 ++ ([9, 9, 9, 9] : List Nat).drop 4 ∧
      (2 < hwGood.size → (rk3588_otp_read hwGood 2 4 [9, 9, 9, 9]).ret = 0)) := by
  have hU : ∀ k, pollOk (hwGood.userStat k) OTPC_USER_DONE = true := fun k => by
    simp [hwGood, pollOk, OTPC_USER_DONE, OTPC_TIMEOUT]
    exact ⟨0, by omega⟩
  have hAuto : ∀ k, pollOk (hwGood.autoStat k) RK3588_RD_DONE = true := fun k => by
    simp [hwGood, pollOk, RK3588_RD_DONE, OTPC_TIMEOUT]
    exact ⟨0, by omega⟩
  have hQ : ∀ k, eccBad (hwGood.qp k) = false := fun k => by
    simp [hwGood, eccBad]
  refine ⟨claim_C1_slicing.1 hwGood 2 3 _ rfl rfl rfl (by rfl) hU (by decide),
    claim_C1_slicing.2.1 hwGood 1 4 _ rfl rfl rfl rfl (by rfl) hU hQ (by decide) (by decide),
    claim_C1_slicing.2.2 hwGood 2 4 _ rfl rfl hAuto (by decide) (by decide) (by decide)⟩

/-- Claim C4: a GEN-C read beginning at or past the fuse size fails
immediately (the driver reports `-ENOMEM` on this path) and no hardware is
touched: the event trace is empty (no register write, no clock enable, no
allocation) and the caller's buffer is untouched. -/
theorem claim_C4_out_of_range (hw : Hw) (o n : Nat) (val : List Nat) (h : o ≥ hw.size) :
    rk3588_otp_read hw o n val = ⟨-12, val, []⟩ := by
  simp [rk3588_otp_read, h]

/-- Witness for C4 at offset 8 on the 8-byte-descriptor oracle. -/
theorem claim_C4_out_of_range_witness :
    8 ≥ hwGood.size ∧ rk3588_otp_read hwGood 8 4 [1, 2] = ⟨-12, [1, 2], []⟩ :=
  ⟨by decide, claim_C4_out_of_range hwGood 8 4 [1, 2] (by decide)⟩

/-- Claim C3: a GEN-C read with `offset < size` and `offset + len > size`
is clamped: it returns success and delivers exactly `size - offset` bytes
(the buffer beyond that is untouched), assuming no hardware failure. -/
theorem claim_C3_clamp (hw : Hw) (o n : Nat) (val : List Nat)
    (hA : hw.allocOk = true) (hC : hw.clkRet = 0)
    (hAuto : ∀ k, pollOk (hw.autoStat k) RK3588_RD_DONE = true)
    (hB : ∀ x ∈ hw.fuse, x < 256)
    (ho : o < hw.size) (hover : hw.size < o + n) (hSize : hw.size ≤ hw.fuse.length) :
    (rk3588_otp_read hw o n val).ret = 0 ∧
    (rk3588_otp_read hw o n val).val
      = (hw.fuse.drop o).take (hw.size - o) ++ val.drop (hw.size - o) := by
  have hcl : rk3588_clamp hw.size o n = hw.size - o := by
    simp [rk3588_clamp, hover]
  have hloop := rk3588_loop_ok hw hAuto hB (rk3588_addr_len o (hw.size - o))
    (rk3588_addr_start0 o) 0
  have har := rk3588_arith o (hw.size - o)
  constructor
  · simp [rk3588_otp_read, show ¬ (o ≥ hw.size) from by omega, hA, hC, hcl, hloop.1]
  · simp [rk3588_otp_read, show ¬ (o ≥ hw.size) from by omega, hA, hC, hcl,
      hloop.1, hloop.2]
    rw [slice_extract hw.fuse (4 * rk3588_addr_start0 o) (4 * rk3588_addr_len o (hw.size - o))
      (rk3588_addr_offset o) (hw.size - o) har.2 (by omega), show 4 * rk3588_addr_start0 o
      + rk3588_addr_offset o = o from har.1]

/-- Witness for C3: scenario S5 shape on the 8-byte image: offset 6,
length 16 delivers the last 2 bytes. -/
theorem claim_C3_clamp_witness :
    (rk3588_otp_read hwGood 6 16 [7, 7, 7, 7]).ret = 0 ∧
    (rk3588_otp_read hwGood 6 16 [7, 7, 7, 7]).val
      = (hwGood.fuse.drop 6).take (hwGood.size - 6) ++ ([7, 7, 7, 7] : List Nat).drop
          (hwGood.size - 6) := by
  have hAuto : ∀ k, pollOk (hwGood.autoStat k) RK3588_RD_DONE = true := fun k => by
    simp [hwGood, pollOk, RK3588_RD_DONE, OTPC_TIMEOUT]
    exact ⟨0, by omega⟩
  exact claim_C3_clamp hwGood 6 16 [7, 7, 7, 7] rfl rfl hAuto (by decide) (by decide)
    (by decide) (by decide)

/-- The sequence of values written to the RK3588 auto-control register, in
order, extracted from an event trace. -/
def autoCtrlWrites (t : List Ev) : List Nat :=
  t.filterMap fun e =>
    match e with
    | Ev.wr off v => if off = RK3588_OTPC_AUTO_CTRL then some v else none
    | _ => none

lemma rk3588_loop_autoctrl (hw : Hw)
    (hAuto : ∀ k, pollOk (hw.autoStat k) RK3588_RD_DONE = true) :
    ∀ (n a i : Nat) (r0 : Int), autoCtrlWrites (rk3588_otp_read_loop hw r0 n a i).2.2
      = (List.range' a n).map
          (fun x => (x <<< RK3588_ADDR_SHIFT) ||| (RK3588_BURST_NUM <<< RK3588_BURST_SHIFT)) := by
  intro n
  induction n with
  | zero => intro a i r0; simp [rk3588_otp_read_loop, autoCtrlWrites]
  | succ n ih =>
    intro a i r0
    have hwt := wait3588_ok _ _ (hAuto i)
    have h := ih (a+1) (i+1) 0
    simp [rk3588_otp_read_loop, hwt, autoCtrlWrites, List.range'_succ,
      RK3588_OTPC_AUTO_CTRL, RK3588_OTPC_AUTO_EN, RK3588_OTPC_INT_ST]
    simpa [autoCtrlWrites, RK3588_OTPC_AUTO_CTRL] using h

/-- Claim C5: for a GEN-C read with in-range offset (and the clamped
length), the i-th value written to the auto-control register is
`((offset/4 + non_secure_base + i) << 16) | (1 << 8)`: the non-secure
base is added to every programmed word address and the burst count is 1. -/
theorem claim_C5_auto_ctrl (hw : Hw) (o n : Nat) (val : List Nat)
    (hA : hw.allocOk = true) (hC : hw.clkRet = 0)
    (hAuto : ∀ k, pollOk (hw.autoStat k) RK3588_RD_DONE = true)
    (ho : o < hw.size) :
    autoCtrlWrites (rk3588_otp_read hw o n val).trace
      = (List.range (rk3588_addr_len o (rk3588_clamp hw.size o n))).map
          (fun i => ((o / 4 + RK3588_NO_SECURE_OFFSET + i) <<< 16) ||| (1 <<< 8)) := by
  have hst : rk3588_addr_start0 o = o / 4 := by
    unfold rk3588_addr_start0 rounddown RK3588_NBYTES
    omega
  have htr : (rk3588_otp_read hw o n val).trace
      = Ev.alloc :: Ev.clkEn ::
          ((rk3588_otp_read_loop hw 0 (rk3588_addr_len o (rk3588_clamp hw.size o n))
            (rk3588_addr_start0 o + RK3588_NO_SECURE_OFFSET) 0).2.2
          ++ [Ev.clkDis, Ev.free]) := by
    simp [rk3588_otp_read, show ¬ (o ≥ hw.size) from by omega, hA, hC,
      apply_ite ReadOut.trace]
  rw [htr]
  have hloop := rk3588_loop_autoctrl hw hAuto
    (rk3588_addr_len o (rk3588_clamp hw.size o n))
    (rk3588_addr_start0 o + RK3588_NO_SECURE_OFFSET) 0 0
  simp only [autoCtrlWrites, List.filterMap_cons, List.filterMap_append] at hloop ⊢
  simp only [List.filterMap] at *
  simp only [List.append_nil]
  rw [hloop, List.range'_eq_map_range, List.map_map]
  apply List.map_congr_left
  intro x _
  simp [hst, RK3588_ADDR_SHIFT, RK3588_BURST_NUM, RK3588_BURST_SHIFT]

/-- Witness for C5: offset 2, length 4 on the concrete oracle (two words,
addresses 0x300 and 0x301). -/
theorem claim_C5_auto_ctrl_witness :
    autoCtrlWrites (rk3588_otp_read hwGood 2 4 []).trace
      = (List.range (rk3588_addr_len 2 (rk3588_clamp hwGood.size 2 4))).map
          (fun i => ((2 / 4 + RK3588_NO_SECURE_OFFSET + i) <<< 16) ||| (1 <<< 8)) := by
  have hAuto : ∀ k, pollOk (hwGood.autoStat k) RK3588_RD_DONE = true := fun k => by
    simp [hwGood, pollOk, RK3588_RD_DONE, OTPC_TIMEOUT]
    exact ⟨0, by omega⟩
  exact claim_C5_auto_ctrl hwGood 2 4 [] rfl rfl hAuto (by decide)

/-- If the first `j` words of the rk3568 loop poll fine and pass the ECC
check but word `j` polls fine and fails the ECC check, the loop stops with
`-EIO`. -/
lemma rk3568_loop_ecc (hw : Hw) :
    ∀ (n a i j : Nat), j < n →
      (∀ k, k ≤ j → pollOk (hw.userStat (i + k)) OTPC_USER_DONE = true) →
      (∀ k, k < j → eccBad (hw.qp (i + k)) = false) →
      eccBad (hw.qp (i + j)) = true →
      (rk3568_otp_read_loop hw n a i).1 = -5 := by
  intro n
  induction n with
  | zero => intro a i j hj _ _ _; omega
  | succ n ih =>
    intro a i j hj hU hQ hqj
    have hwt : pollOk (hw.userStat i) OTPC_USER_DONE = true := by
      simpa using hU 0 (by omega)
    cases j with
    | zero =>
      have hbad : eccBad (hw.qp i) = true := by simpa using hqj
      simp [rk3568_otp_read_loop, wait_ok _ _ hwt, hbad]
    | succ j =>
      have hok : eccBad (hw.qp i) = false := by simpa using hQ 0 (by omega)
      have hrest := ih (a+1) (i+1) j (by omega)
        (fun k hk => by
          have := hU (k+1) (by omega)
          simpa [Nat.add_assoc, Nat.add_comm 1 k] using this)
        (fun k hk => by
          have := hQ (k+1) (by omega)
          simpa [Nat.add_assoc, Nat.add_comm 1 k] using this)
        (by
          have : eccBad (hw.qp (i + (j+1))) = true := hqj
          simpa [Nat.add_assoc, Nat.add_comm 1 j] using this)
      simp [rk3568_otp_read_loop, wait_ok _ _ hwt, hok, hrest]

/-- Claim C2: on a GEN-B read, if a word in the requested word range has a
QP readback with `(qp & 0xC0) == 0xC0` or `(qp & 0x20) != 0` (all earlier
words having polled and checked fine), the whole read returns the hard
I/O failure `-EIO` and the caller's buffer is untouched — no partial
data. -/
theorem claim_C2_ecc_abort (hw : Hw) (o n j : Nat) (val : List Nat)
    (hA : hw.allocOk = true) (hC : hw.clkRet = 0)
    (h1 : hw.rstAssertRet = 0) (h2 : hw.rstDeassertRet = 0)
    (hS : pollOk hw.sbpiStat OTPC_SBPI_DONE = true)
    (hj : j < rk3568_addr_len o n)
    (hU : ∀ k, k ≤ j → pollOk (hw.userStat k) OTPC_USER_DONE = true)
    (hQ : ∀ k, k < j → eccBad (hw.qp k) = false)
    (hqj : eccBad (hw.qp j) = true) :
    (rk3568_otp_read hw o n val).ret = -5 ∧ (rk3568_otp_read hw o n val).val = val := by
  have hre : rockchip_otp_reset hw = (0, [Ev.rstAssert, Ev.rstDeassert]) := by
    simp [rockchip_otp_reset, h1, h2]
  have hecc : px30_otp_ecc_enable hw true
      = (0, sbpiCmdSeq true ++ [Ev.wr OTPC_INT_STATUS OTPC_SBPI_DONE]) := by
    simp [px30_otp_ecc_enable, wait_ok _ _ hS]
  have hloop := rk3568_loop_ecc hw (rk3568_addr_len o n) (rk3568_addr_start o) 0 j hj
    (fun k hk => by simpa using hU k hk)
    (fun k hk => by simpa using hQ k hk)
    (by simpa using hqj)
  constructor
  · simp [rk3568_otp_read, hA, hC, hre, hecc, hloop]
  · simp [rk3568_otp_read, hA, hC, hre, hecc, hloop]

/-- Oracle identical to `hwGood` except every QP readback flags an
uncorrectable ECC error (`0xC0`). -/
def hwEcc : Hw :=
  ⟨[0x11, 0x22, 0x33, 0x44, 0x55, 0x66, 0x77, 0x88], 8, 0, 0, 0, true,
   fun _ => 255, fun _ _ => 255, fun _ => 0xC0, fun _ _ => 255⟩

/-- Witness for C2: scenario S3 shape — the first word's QP readback is
`0xC0`, the read of 4 bytes at offset 0 fails with `-EIO` and the
caller's buffer still holds its initial contents. -/
theorem claim_C2_ecc_abort_witness :
    (rk3568_otp_read hwEcc 0 4 [3, 1, 4, 1]).ret = -5 ∧
    (rk3568_otp_read hwEcc 0 4 [3, 1, 4, 1]).val = [3, 1, 4, 1] := by
  have hU : ∀ k, k ≤ 0 → pollOk (hwEcc.userStat k) OTPC_USER_DONE = true := fun k _ => by
    simp [hwEcc, pollOk, OTPC_USER_DONE, OTPC_TIMEOUT]
    exact ⟨0, by omega⟩
  exact claim_C2_ecc_abort hwEcc 0 4 0 [3, 1, 4, 1] rfl rfl rfl rfl (by rfl)
    (by decide) hU (fun k hk => by omega) (by decide)

lemma pollOk_false_iff (stat : Nat → Nat) (flag : Nat) :
    pollOk stat flag = false ↔ ∀ t, t ≤ OTPC_TIMEOUT → stat t &&& flag = 0 := by
  unfold pollOk
  constructor
  · intro h t ht
    by_contra hne
    have : (List.range' 0 (OTPC_TIMEOUT + 1)).any (fun t => stat t &&& flag != 0) = true := by
      rw [List.any_eq_true]
      exact ⟨t, by simp [List.mem_range'_1]; omega, by simpa using hne⟩
    rw [h] at this
    exact Bool.false_ne_true this
  · intro h
    by_contra hne
    have ht : (List.range' 0 (OTPC_TIMEOUT + 1)).any (fun t => stat t &&& flag != 0) = true := by
      cases hx : (List.range' 0 (OTPC_TIMEOUT + 1)).any (fun t => stat t &&& flag != 0)
      · exact absurd hx hne
      · rfl
    rw [List.any_eq_true] at ht
    rcases ht with ⟨t, hmem, hp⟩
    have htle : t ≤ OTPC_TIMEOUT := by
      simp [List.mem_range'_1] at hmem
      omega
    have := h t htle
    simp [this] at hp

/-- Counterexample to claim C7 as stated: the claim says the poll runs
until `(value & mask) == mask`, returning timeout iff that never happens
within the cap.  With a constant status word 2 and mask 6 the code
returns success (the stop condition in the source is `(status & flag)`
nonzero), although `(2 & 6) == 6` never holds. -/
theorem claim_C7_counterexample :
    (px30_otp_wait_status (fun _ => 2) 6).1 = 0 ∧ 2 &&& 6 ≠ 6 := by
  constructor
  · rfl
  · decide

/-- Claim C7 (amended): the status-wait primitive samples the 32-bit
status word once per microsecond for at most 10000 µs; it returns the
timeout error iff no sample within the cap has a bit of `mask` set
(`(value & mask) != 0` — which coincides with the claim's
`(value & mask) == mask` for the single-bit masks the driver passes);
otherwise it returns ok after clearing the sticky status by writing
`mask` back to the status register. -/
theorem claim_C7_wait_status (stat : Nat → Nat) (flag : Nat) :
    ((px30_otp_wait_status stat flag).1 = -110 ↔
      ∀ t, t ≤ OTPC_TIMEOUT → stat t &&& flag = 0) ∧
    ((px30_otp_wait_status stat flag).1 ≠ -110 →
      px30_otp_wait_status stat flag = (0, [Ev.wr OTPC_INT_STATUS flag])) ∧
    ((rk3588_otp_wait_status stat flag).1 = -110 ↔
      ∀ t, t ≤ OTPC_TIMEOUT → stat t &&& flag = 0) ∧
    ((rk3588_otp_wait_status stat flag).1 ≠ -110 →
      rk3588_otp_wait_status stat flag = (0, [Ev.wr RK3588_OTPC_INT_ST flag])) := by
  cases hb : pollOk stat flag
  · have hw1 := wait_fail stat flag hb
    have hw2 : rk3588_otp_wait_status stat flag = (-110, []) := by
      simp [rk3588_otp_wait_status, otp_wait_status, hb]
    have hall := (pollOk_false_iff stat flag).mp hb
    refine ⟨by simp [hw1]; exact hall, by simp [hw1], by simp [hw2]; exact hall,
      by simp [hw2]⟩
  · have hw1 := wait_ok stat flag hb
    have hw2 := wait3588_ok stat flag hb
    have hnall : ¬ (∀ t, t ≤ OTPC_TIMEOUT → stat t &&& flag = 0) := by
      intro hall
      rw [(pollOk_false_iff stat flag).mpr hall] at hb
      exact Bool.false_ne_true hb
    refine ⟨by simp [hw1, hnall], fun _ => hw1, by simp [hw2, hnall], fun _ => hw2⟩

/-- Witness for the amended C7 at the concrete never-asserting status
(constant 0, mask 2): both primitives report timeout. -/
theorem claim_C7_wait_status_witness :
    ((px30_otp_wait_status (fun _ => 0) 2).1 = -110 ↔
      ∀ t, t ≤ OTPC_TIMEOUT → 0 &&& 2 = 0) ∧
    ((px30_otp_wait_status (fun _ => 0) 2).1 ≠ -110 →
      px30_otp_wait_status (fun _ => 0) 2 = (0, [Ev.wr OTPC_INT_STATUS 2])) ∧
    ((rk3588_otp_wait_status (fun _ => 0) 2).1 = -110 ↔
      ∀ t, t ≤ OTPC_TIMEOUT → 0 &&& 2 = 0) ∧
    ((rk3588_otp_wait_status (fun _ => 0) 2).1 ≠ -110 →
      rk3588_otp_wait_status (fun _ => 0) 2 = (0, [Ev.wr RK3588_OTPC_INT_ST 2])) :=
  claim_C7_wait_status (fun _ => 0) 2

/-- Decoded values of the five SBPI command writes: DAP address program,
command-slot-valid mark, write-register/ECC opcode (0xC0 | 0x3A = 0xFA),
the sentinel (0x09 = disable, 0x00 = enable), SBPI-enable pulse. -/
lemma sbpiCmdSeq_values :
    sbpiCmdSeq false
      = [Ev.wr OTPC_SBPI_CTRL 0xFF000200, Ev.wr OTPC_SBPI_CMD_VALID_PRE 0xFFFF0001,
         Ev.wr OTPC_SBPI_CMD0_OFFSET 0xFA, Ev.wr OTPC_SBPI_CMD1_OFFSET 0x09,
         Ev.wr OTPC_SBPI_CTRL 0x10001] ∧
    sbpiCmdSeq true
      = [Ev.wr OTPC_SBPI_CTRL 0xFF000200, Ev.wr OTPC_SBPI_CMD_VALID_PRE 0xFFFF0001,
         Ev.wr OTPC_SBPI_CMD0_OFFSET 0xFA, Ev.wr OTPC_SBPI_CMD1_OFFSET 0x00,
         Ev.wr OTPC_SBPI_CTRL 0x10001] := by
  constructor <;> decide

/-- Claim C8: before touching the user interface, a GEN-A read issues the
SBPI sequence with the ECC-disable sentinel (0x09) and a GEN-B read with
the ECC-enable sentinel (0x00): program the DAP address, mark the command
slot valid, write the write-register/ECC opcode to slot 0, write the
sentinel to slot 1, pulse SBPI-enable, poll SBPI-done (clearing it on
success).  If SBPI-done does not assert within the 10000 µs cap, the
whole read fails (with the timeout errno -ETIMEDOUT). -/
theorem claim_C8_sbpi (hw : Hw) (o n : Nat) (val : List Nat)
    (hA : hw.allocOk = true) (hC : hw.clkRet = 0)
    (h1 : hw.rstAssertRet = 0) (h2 : hw.rstDeassertRet = 0) :
    (pollOk hw.sbpiStat OTPC_SBPI_DONE = true →
      ∃ rest, (px30_otp_read hw o n val).trace
        = Ev.clkEn :: Ev.rstAssert :: Ev.rstDeassert ::
          Ev.wr OTPC_SBPI_CTRL 0xFF000200 :: Ev.wr OTPC_SBPI_CMD_VALID_PRE 0xFFFF0001 ::
          Ev.wr OTPC_SBPI_CMD0_OFFSET 0xFA :: Ev.wr OTPC_SBPI_CMD1_OFFSET 0x09 ::
          Ev.wr OTPC_SBPI_CTRL 0x10001 :: Ev.wr OTPC_INT_STATUS 0x2 :: rest) ∧
    (pollOk hw.sbpiStat OTPC_SBPI_DONE = false →
      (px30_otp_read hw o n val).ret = -110 ∧
      (px30_otp_read hw o n val).trace
        = [Ev.clkEn, Ev.rstAssert, Ev.rstDeassert,
           Ev.wr OTPC_SBPI_CTRL 0xFF000200, Ev.wr OTPC_SBPI_CMD_VALID_PRE 0xFFFF0001,
           Ev.wr OTPC_SBPI_CMD0_OFFSET 0xFA, Ev.wr OTPC_SBPI_CMD1_OFFSET 0x09,
           Ev.wr OTPC_SBPI_CTRL 0x10001, Ev.clkDis]) ∧
    (pollOk hw.sbpiStat OTPC_SBPI_DONE = true →
      ∃ rest, (rk3568_otp_read hw o n val).trace
        = Ev.alloc :: Ev.clkEn :: Ev.rstAssert :: Ev.rstDeassert ::
          Ev.wr OTPC_SBPI_CTRL 0xFF000200 :: Ev.wr OTPC_SBPI_CMD_VALID_PRE 0xFFFF0001 ::
          Ev.wr OTPC_SBPI_CMD0_OFFSET 0xFA :: Ev.wr OTPC_SBPI_CMD1_OFFSET 0x00 ::
          Ev.wr OTPC_SBPI_CTRL 0x10001 :: Ev.wr OTPC_INT_STATUS 0x2 :: rest) ∧
    (pollOk hw.sbpiStat OTPC_SBPI_DONE = false →
      (rk3568_otp_read hw o n val).ret = -110 ∧
      (rk3568_otp_read hw o n val).trace
        = [Ev.alloc, Ev.clkEn, Ev.rstAssert, Ev.rstDeassert,
           Ev.wr OTPC_SBPI_CTRL 0xFF000200, Ev.wr OTPC_SBPI_CMD_VALID_PRE 0xFFFF0001,
           Ev.wr OTPC_SBPI_CMD0_OFFSET 0xFA, Ev.wr OTPC_SBPI_CMD1_OFFSET 0x00,
           Ev.wr OTPC_SBPI_CTRL 0x10001, Ev.clkDis, Ev.free]) := by
  have hre : rockchip_otp_reset hw = (0, [Ev.rstAssert, Ev.rstDeassert]) := by
    simp [rockchip_otp_reset, h1, h2]
  refine ⟨?_, ?_, ?_, ?_⟩
  · intro hS
    have hecc : px30_otp_ecc_enable hw false
        = (0, sbpiCmdSeq false ++ [Ev.wr OTPC_INT_STATUS OTPC_SBPI_DONE]) := by
      simp [px30_otp_ecc_enable, wait_ok _ _ hS]
    refine ⟨Ev.wr OTPC_USER_CTRL (OTPC_USE_USER ||| OTPC_USE_USER_MASK) ::
      ((px30_otp_read_loop hw n o 0).2.2
        ++ [Ev.wr OTPC_USER_CTRL OTPC_USE_USER_MASK, Ev.clkDis]), ?_⟩
    simp [px30_otp_read, hC, hre, hecc, sbpiCmdSeq_values.1, OTPC_SBPI_DONE]
  · intro hS
    have hecc : px30_otp_ecc_enable hw false = (-110, sbpiCmdSeq false ++ []) := by
      simp [px30_otp_ecc_enable, wait_fail _ _ hS]
    constructor
    · simp [px30_otp_read, hC, hre, hecc]
    · simp [px30_otp_read, hC, hre, hecc, sbpiCmdSeq_values.1]
  · intro hS
    have hecc : px30_otp_ecc_enable hw true
        = (0, sbpiCmdSeq true ++ [Ev.wr OTPC_INT_STATUS OTPC_SBPI_DONE]) := by
      simp [px30_otp_ecc_enable, wait_ok _ _ hS]
    refine ⟨Ev.wr OTPC_USER_CTRL (OTPC_USE_USER ||| OTPC_USE_USER_MASK) ::
      ((rk3568_otp_read_loop hw (rk3568_addr_len o n) (rk3568_addr_start o) 0).2.2
        ++ [Ev.wr OTPC_USER_CTRL OTPC_USE_USER_MASK, Ev.clkDis, Ev.free]), ?_⟩
    simp [rk3568_otp_read, hA, hC, hre, hecc, sbpiCmdSeq_values.2, OTPC_SBPI_DONE,
      apply_ite ReadOut.trace]
  · intro hS
    have hecc : px30_otp_ecc_enable hw true = (-110, sbpiCmdSeq true ++ []) := by
      simp [px30_otp_ecc_enable, wait_fail _ _ hS]
    constructor
    · simp [rk3568_otp_read, hA, hC, hre, hecc]
    · simp [rk3568_otp_read, hA, hC, hre, hecc, sbpiCmdSeq_values.2]

/-- Oracle on which the SBPI-done bit never asserts. -/
def hwSbpiStuck : Hw :=
  ⟨[0x11, 0x22, 0x33, 0x44, 0x55, 0x66, 0x77, 0x88], 8, 0, 0, 0, true,
   fun _ => 0, fun _ _ => 255, fun _ => 0, fun _ _ => 255⟩

/-- Witness for C8: on `hwGood` the SBPI sequence heads both traces; on
`hwSbpiStuck` both reads fail with the timeout errno. -/
theorem claim_C8_sbpi_witness :
    (∃ rest, (px30_otp_read hwGood 2 3 []).trace
        = Ev.clkEn :: Ev.rstAssert :: Ev.rstDeassert ::
          Ev.wr OTPC_SBPI_CTRL 0xFF000200 :: Ev.wr OTPC_SBPI_CMD_VALID_PRE 0xFFFF0001 ::
          Ev.wr OTPC_SBPI_CMD0_OFFSET 0xFA :: Ev.wr OTPC_SBPI_CMD1_OFFSET 0x09 ::
          Ev.wr OTPC_SBPI_CTRL 0x10001 :: Ev.wr OTPC_INT_STATUS 0x2 :: rest) ∧
    ((rk3568_otp_read hwSbpiStuck 2 3 []).ret = -110 ∧
      (rk3568_otp_read hwSbpiStuck 2 3 []).trace
        = [Ev.alloc, Ev.clkEn, Ev.rstAssert, Ev.rstDeassert,
           Ev.wr OTPC_SBPI_CTRL 0xFF000200, Ev.wr OTPC_SBPI_CMD_VALID_PRE 0xFFFF0001,
           Ev.wr OTPC_SBPI_CMD0_OFFSET 0xFA, Ev.wr OTPC_SBPI_CMD1_OFFSET 0x00,
           Ev.wr OTPC_SBPI_CTRL 0x10001, Ev.clkDis, Ev.free]) :=
  ⟨(claim_C8_sbpi hwGood 2 3 [] rfl rfl rfl rfl).1 (by rfl),
   (claim_C8_sbpi hwSbpiStuck 2 3 [] rfl rfl rfl rfl).2.2.2
     ((pollOk_false_iff _ _).mpr (fun t _ => by simp [hwSbpiStuck]))⟩

/-- Number of reads of the data register `reg` in a trace. -/
def dataReads (reg : Nat) (t : List Ev) : Nat :=
  (t.filter fun e => decide (e = Ev.rd reg)).length

lemma rk3568_addr_len_zero (o : Nat) :
    rk3568_addr_len o 0 = if o % 2 = 0 then 0 else 1 := by
  unfold rk3568_addr_len rk3568_addr_end rk3568_addr_start rounddown roundup RK3568_NBYTES
  split <;> omega

lemma rk3588_addr_len_zero (o : Nat) :
    rk3588_addr_len o 0 = if o % 4 = 0 then 0 else 1 := by
  unfold rk3588_addr_len rk3588_addr_end rk3588_addr_start0 rounddown roundup RK3588_NBYTES
  split <;> omega

lemma rk3568_loop_one (hw : Hw) (a : Nat)
    (hU0 : pollOk (hw.userStat 0) OTPC_USER_DONE = true)
    (hQ0 : eccBad (hw.qp 0) = false) :
    rk3568_otp_read_loop hw 1 a 0
      = (0, [user_q_word hw.fuse a % 256, user_q_word hw.fuse a / 256 % 256],
         [Ev.wr OTPC_USER_ADDR (a ||| OTPC_USER_ADDR_MASK),
          Ev.wr OTPC_USER_ENABLE (OTPC_USER_FSM_ENABLE ||| OTPC_USER_FSM_ENABLE_MASK),
          Ev.wr OTPC_INT_STATUS OTPC_USER_DONE,
          Ev.rd OTPC_USER_QP, Ev.rd OTPC_USER_Q]) := by
  show rk3568_otp_read_loop hw (0+1) a 0 = _
  simp [rk3568_otp_read_loop, wait_ok _ _ hU0, hQ0]

lemma rk3588_loop_one (hw : Hw) (a : Nat) (r0 : Int)
    (hA0 : pollOk (hw.autoStat 0) RK3588_RD_DONE = true) :
    rk3588_otp_read_loop hw r0 1 a 0
      = (0, [rk3588_dout hw.fuse a % 256, rk3588_dout hw.fuse a / 256 % 256,
             rk3588_dout hw.fuse a / 65536 % 256, rk3588_dout hw.fuse a / 16777216 % 256],
         [Ev.wr RK3588_OTPC_AUTO_CTRL
            ((a <<< RK3588_ADDR_SHIFT) ||| (RK3588_BURST_NUM <<< RK3588_BURST_SHIFT)),
          Ev.wr RK3588_OTPC_AUTO_EN RK3588_AUTO_EN,
          Ev.wr RK3588_OTPC_INT_ST RK3588_RD_DONE,
          Ev.rd RK3588_OTPC_DOUT0]) := by
  show rk3588_otp_read_loop hw r0 (0+1) a 0 = _
  simp [rk3588_otp_read_loop, wait3588_ok _ _ hA0]

/-- Claim C10: a zero-length request at an in-range offset returns
success and writes nothing to the caller's buffer on every generation;
on GEN-B (resp. GEN-C), a zero-length request at an odd
(resp. non-multiple-of-4) offset still performs one hardware word read,
because the enclosing word range rounds to one word, while at an aligned
offset no word is read. -/
theorem claim_C10_zero_length :
    (∀ (hw : Hw) (o : Nat) (val : List Nat),
        hw.clkRet = 0 → hw.rstAssertRet = 0 → hw.rstDeassertRet = 0 →
        pollOk hw.sbpiStat OTPC_SBPI_DONE = true →
        (px30_otp_read hw o 0 val).ret = 0 ∧ (px30_otp_read hw o 0 val).val = val ∧
        dataReads OTPC_USER_Q (px30_otp_read hw o 0 val).trace = 0)
  ∧ (∀ (hw : Hw) (o : Nat) (val : List Nat),
        hw.allocOk = true → hw.clkRet = 0 → hw.rstAssertRet = 0 → hw.rstDeassertRet = 0 →
        pollOk hw.sbpiStat OTPC_SBPI_DONE = true →
        (∀ k, pollOk (hw.userStat k) OTPC_USER_DONE = true) →
        (∀ k, eccBad (hw.qp k) = false) →
        (rk3568_otp_read hw o 0 val).ret = 0 ∧ (rk3568_otp_read hw o 0 val).val = val ∧
        dataReads OTPC_USER_Q (rk3568_otp_read hw o 0 val).trace
          = (if o % 2 = 0 then 0 else 1))
  ∧ (∀ (hw : Hw) (o : Nat) (val : List Nat),
        hw.allocOk = true → hw.clkRet = 0 →
        (∀ k, pollOk (hw.autoStat k) RK3588_RD_DONE = true) →
        o < hw.size →
        (rk3588_otp_read hw o 0 val).ret = 0 ∧ (rk3588_otp_read hw o 0 val).val = val ∧
        dataReads RK3588_OTPC_DOUT0 (rk3588_otp_read hw o 0 val).trace
          = (if o % 4 = 0 then 0 else 1)) := by
  refine ⟨?_, ?_, ?_⟩
  · intro hw o val hC h1 h2 hS
    have hre : rockchip_otp_reset hw = (0, [Ev.rstAssert, Ev.rstDeassert]) := by
      simp [rockchip_otp_reset, h1, h2]
    have hecc : px30_otp_ecc_enable hw false
        = (0, sbpiCmdSeq false ++ [Ev.wr OTPC_INT_STATUS OTPC_SBPI_DONE]) := by
      simp [px30_otp_ecc_enable, wait_ok _ _ hS]
    refine ⟨?_, ?_, ?_⟩ <;>
      simp [px30_otp_read, hC, hre, hecc, px30_otp_read_loop, dataReads, sbpiCmdSeq]
  · intro hw o val hA hC h1 h2 hS hU hQ
    have hre : rockchip_otp_reset hw = (0, [Ev.rstAssert, Ev.rstDeassert]) := by
      simp [rockchip_otp_reset, h1, h2]
    have hecc : px30_otp_ecc_enable hw true
        = (0, sbpiCmdSeq true ++ [Ev.wr OTPC_INT_STATUS OTPC_SBPI_DONE]) := by
      simp [px30_otp_ecc_enable, wait_ok _ _ hS]
    by_cases ho2 : o % 2 = 0
    · have hlen : rk3568_addr_len o 0 = 0 := by rw [rk3568_addr_len_zero]; simp [ho2]
      refine ⟨?_, ?_, ?_⟩ <;>
        simp [rk3568_otp_read, hA, hC, hre, hecc, hlen, rk3568_otp_read_loop,
          dataReads, sbpiCmdSeq, ho2]
    · have hlen : rk3568_addr_len o 0 = 1 := by rw [rk3568_addr_len_zero]; simp [ho2]
      have hloop := rk3568_loop_one hw (rk3568_addr_start o) (hU 0) (hQ 0)
      refine ⟨?_, ?_, ?_⟩ <;>
        simp [rk3568_otp_read, hA, hC, hre, hecc, hlen, hloop, dataReads, sbpiCmdSeq,
          ho2, OTPC_USER_QP, OTPC_USER_Q, OTPC_USER_ADDR, OTPC_USER_ENABLE,
          OTPC_INT_STATUS]
  · intro hw o val hA hC hAuto ho
    have hcl : rk3588_clamp hw.size o 0 = 0 := by
      simp [rk3588_clamp]
      omega
    by_cases ho4 : o % 4 = 0
    · have hlen : rk3588_addr_len o 0 = 0 := by rw [rk3588_addr_len_zero]; simp [ho4]
      refine ⟨?_, ?_, ?_⟩ <;>
        simp [rk3588_otp_read, show ¬ (o ≥ hw.size) from by omega, hA, hC, hcl, hlen,
          rk3588_otp_read_loop, dataReads, ho4]
    · have hlen : rk3588_addr_len o 0 = 1 := by rw [rk3588_addr_len_zero]; simp [ho4]
      have hloop := rk3588_loop_one hw (rk3588_addr_start0 o + RK3588_NO_SECURE_OFFSET) 0
        (hAuto 0)
      refine ⟨?_, ?_, ?_⟩ <;>
        simp [rk3588_otp_read, show ¬ (o ≥ hw.size) from by omega, hA, hC, hcl, hlen,
          hloop, dataReads, ho4, RK3588_OTPC_AUTO_CTRL, RK3588_OTPC_AUTO_EN,
          RK3588_OTPC_INT_ST, RK3588_OTPC_DOUT0]

/-- Witness for C10: zero-length reads at offset 2 (aligned for GEN-A/B)
and at offset 3 (odd / non-multiple-of-4) on the concrete oracle. -/
theorem claim_C10_zero_length_witness :
    ((px30_otp_read hwGood 2 0 [5]).ret = 0 ∧ (px30_otp_read hwGood 2 0 [5]).val = [5] ∧
      dataReads OTPC_USER_Q (px30_otp_read hwGood 2 0 [5]).trace = 0) ∧
    ((rk3568_otp_read hwGood 3 0 [5]).ret = 0 ∧ (rk3568_otp_read hwGood 3 0 [5]).val = [5] ∧
      dataReads OTPC_USER_Q (rk3568_otp_read hwGood 3 0 [5]).trace
        = (if 3 % 2 = 0 then 0 else 1)) ∧
    ((rk3588_otp_read hwGood 3 0 [5]).ret = 0 ∧ (rk3588_otp_read hwGood 3 0 [5]).val = [5] ∧
      dataReads RK3588_OTPC_DOUT0 (rk3588_otp_read hwGood 3 0 [5]).trace
        = (if 3 % 4 = 0 then 0 else 1)) := by
  have hU : ∀ k, pollOk (hwGood.userStat k) OTPC_USER_DONE = true := fun k => by
    simp [hwGood, pollOk, OTPC_USER_DONE, OTPC_TIMEOUT]
    exact ⟨0, by omega⟩
  have hAuto : ∀ k, pollOk (hwGood.autoStat k) RK3588_RD_DONE = true := fun k => by
    simp [hwGood, pollOk, RK3588_RD_DONE, OTPC_TIMEOUT]
    exact ⟨0, by omega⟩
  have hQ : ∀ k, eccBad (hwGood.qp k) = false := fun k => by
    simp [hwGood, eccBad]
  exact ⟨claim_C10_zero_length.1 hwGood 2 [5] rfl rfl rfl (by rfl),
    claim_C10_zero_length.2.1 hwGood 3 [5] rfl rfl rfl rfl (by rfl) hU hQ,
    claim_C10_zero_length.2.2 hwGood 3 [5] rfl rfl hAuto (by decide)⟩

/-! Infrastructure for the resource-balancing claim: projections of a
trace onto clock, reset, allocation, and user-interface-selection events. -/

def isClkEv : Ev → Bool
  | Ev.clkEn => true
  | Ev.clkDis => true
  | _ => false

def isRstEv : Ev → Bool
  | Ev.rstAssert => true
  | Ev.rstDeassert => true
  | _ => false

def isMemEv : Ev → Bool
  | Ev.alloc => true
  | Ev.free => true
  | _ => false

/-- Writes to the user-control register (the only ones the driver issues
set or clear OTPC_USE_USER) and clock disables. -/
def isSelEv : Ev → Bool
  | Ev.wr off _ => decide (off = OTPC_USER_CTRL)
  | Ev.clkDis => true
  | _ => false

/-- Clock-group enable/disable events of a trace, in order. -/
def clkEvents (t : List Ev) : List Ev := t.filter isClkEv

/-- Successful reset assert/deassert events of a trace, in order. -/
def rstEvents (t : List Ev) : List Ev := t.filter isRstEv

/-- Scratch allocation/free events of a trace, in order. -/
def memEvents (t : List Ev) : List Ev := t.filter isMemEv

/-- User-interface-selection writes and clock disables of a trace, in
order: witnesses that the selection bit set before the loop is cleared
before the clocks are disabled. -/
def userSelEvents (t : List Ev) : List Ev := t.filter isSelEv

/-- Events emitted inside the per-word/per-byte loops and the SBPI
sequence: register writes not to OTPC_USER_CTRL, and data reads. -/
def innerEv : Ev → Bool
  | Ev.wr off _ => decide (off ≠ OTPC_USER_CTRL)
  | Ev.rd _ => true
  | _ => false

lemma filters_nil_of_inner (t : List Ev) (h : ∀ e ∈ t, innerEv e = true) :
    clkEvents t = [] ∧ rstEvents t = [] ∧ memEvents t = [] ∧ userSelEvents t = [] := by
  refine ⟨?_, ?_, ?_, ?_⟩ <;>
  · simp only [clkEvents, rstEvents, memEvents, userSelEvents, List.filter_eq_nil_iff]
    intro e he
    have hi := h e he
    cases e <;> simp_all [innerEv, isClkEv, isRstEv, isMemEv, isSelEv]

lemma px30_loop_inner (hw : Hw) :
    ∀ n a i, ∀ e ∈ (px30_otp_read_loop hw n a i).2.2, innerEv e = true := by
  intro n
  induction n with
  | zero => intro a i e he; simp [px30_otp_read_loop] at he
  | succ n ih =>
    intro a i e he
    cases hb : pollOk (hw.userStat i) OTPC_USER_DONE
    · rw [px30_otp_read_loop] at he
      simp [wait_fail _ _ hb] at he
      rcases he with he | he <;>
        simp [he, innerEv, OTPC_USER_ADDR, OTPC_USER_ENABLE, OTPC_USER_CTRL]
    · rw [px30_otp_read_loop] at he
      simp [wait_ok _ _ hb] at he
      rcases he with he | he | he | he | he
      · simp [he, innerEv, OTPC_USER_ADDR, OTPC_USER_CTRL]
      · simp [he, innerEv, OTPC_USER_ENABLE, OTPC_USER_CTRL]
      · simp [he, innerEv, OTPC_INT_STATUS, OTPC_USER_CTRL]
      · simp [he, innerEv]
      · exact ih (a+1) (i+1) e he

lemma rk3568_loop_inner (hw : Hw) :
    ∀ n a i, ∀ e ∈ (rk3568_otp_read_loop hw n a i).2.2, innerEv e = true := by
  intro n
  induction n with
  | zero => intro a i e he; simp [rk3568_otp_read_loop] at he
  | succ n ih =>
    intro a i e he
    cases hb : pollOk (hw.userStat i) OTPC_USER_DONE
    · rw [rk3568_otp_read_loop] at he
      simp [wait_fail _ _ hb] at he
      rcases he with he | he <;>
        simp [he, innerEv, OTPC_USER_ADDR, OTPC_USER_ENABLE, OTPC_USER_CTRL]
    · rw [rk3568_otp_read_loop] at he
      cases hq : eccBad (hw.qp i)
      · simp [wait_ok _ _ hb, hq] at he
        rcases he with he | he | he | he | he | he
        · simp [he, innerEv, OTPC_USER_ADDR, OTPC_USER_CTRL]
        · simp [he, innerEv, OTPC_USER_ENABLE, OTPC_USER_CTRL]
        · simp [he, innerEv, OTPC_INT_STATUS, OTPC_USER_CTRL]
        · simp [he, innerEv]
        · simp [he, innerEv]
        · exact ih (a+1) (i+1) e he
      · simp [wait_ok _ _ hb, hq] at he
        rcases he with he | he | he | he
        · simp [he, innerEv, OTPC_USER_ADDR, OTPC_USER_CTRL]
        · simp [he, innerEv, OTPC_USER_ENABLE, OTPC_USER_CTRL]
        · simp [he, innerEv, OTPC_INT_STATUS, OTPC_USER_CTRL]
        · simp [he, innerEv]

lemma rk3588_loop_inner (hw : Hw) :
    ∀ n a i r0, ∀ e ∈ (rk3588_otp_read_loop hw r0 n a i).2.2, innerEv e = true := by
  intro n
  induction n with
  | zero => intro a i r0 e he; simp [rk3588_otp_read_loop] at he
  | succ n ih =>
    intro a i r0 e he
    cases hb : pollOk (hw.autoStat i) RK3588_RD_DONE
    · rw [rk3588_otp_read_loop] at he
      simp [wait3588_fail _ _ hb] at he
      rcases he with he | he <;>
        simp [he, innerEv, RK3588_OTPC_AUTO_CTRL, RK3588_OTPC_AUTO_EN, OTPC_USER_CTRL]
    · rw [rk3588_otp_read_loop] at he
      simp [wait3588_ok _ _ hb] at he
      rcases he with he | he | he | he | he
      · simp [he, innerEv, RK3588_OTPC_AUTO_CTRL, OTPC_USER_CTRL]
      · simp [he, innerEv, RK3588_OTPC_AUTO_EN, OTPC_USER_CTRL]
      · simp [he, innerEv, RK3588_OTPC_INT_ST, OTPC_USER_CTRL]
      · simp [he, innerEv]
      · exact ih (a+1) (i+1) 0 e he

lemma ecc_trace_inner (hw : Hw) (en : Bool) :
    ∀ e ∈ (px30_otp_ecc_enable hw en).2, innerEv e = true := by
  intro e he
  cases hb : pollOk hw.sbpiStat OTPC_SBPI_DONE
  · simp [px30_otp_ecc_enable, wait_fail _ _ hb, sbpiCmdSeq] at he
    rcases he with he | he | he | he | he <;>
      simp [he, innerEv, OTPC_SBPI_CTRL, OTPC_SBPI_CMD_VALID_PRE, OTPC_SBPI_CMD0_OFFSET,
        OTPC_SBPI_CMD1_OFFSET, OTPC_USER_CTRL]
  · simp [px30_otp_ecc_enable, wait_ok _ _ hb, sbpiCmdSeq] at he
    rcases he with he | he | he | he | he | he <;>
      simp [he, innerEv, OTPC_SBPI_CTRL, OTPC_SBPI_CMD_VALID_PRE, OTPC_SBPI_CMD0_OFFSET,
        OTPC_SBPI_CMD1_OFFSET, OTPC_INT_STATUS, OTPC_USER_CTRL]

lemma px30_balanced (hw : Hw) (o n : Nat) (val : List Nat) (hRD : hw.rstDeassertRet = 0) :
    (clkEvents (px30_otp_read hw o n val).trace = [] ∨
     clkEvents (px30_otp_read hw o n val).trace = [Ev.clkEn, Ev.clkDis]) ∧
    (rstEvents (px30_otp_read hw o n val).trace = [] ∨
     rstEvents (px30_otp_read hw o n val).trace = [Ev.rstAssert, Ev.rstDeassert]) ∧
    (userSelEvents (px30_otp_read hw o n val).trace = [] ∨
     userSelEvents (px30_otp_read hw o n val).trace = [Ev.clkDis] ∨
     userSelEvents (px30_otp_read hw o n val).trace
       = [Ev.wr OTPC_USER_CTRL (OTPC_USE_USER ||| OTPC_USE_USER_MASK),
          Ev.wr OTPC_USER_CTRL OTPC_USE_USER_MASK, Ev.clkDis]) := by
  by_cases hclk : hw.clkRet < 0
  · have ht : (px30_otp_read hw o n val).trace = [] := by
      simp [px30_otp_read, hclk]
    simp [ht, clkEvents, rstEvents, userSelEvents]
  · by_cases hrA : hw.rstAssertRet = 0
    · have hre : rockchip_otp_reset hw = (0, [Ev.rstAssert, Ev.rstDeassert]) := by
        simp [rockchip_otp_reset, hrA, hRD]
      cases hS : pollOk hw.sbpiStat OTPC_SBPI_DONE
      · have hecc : px30_otp_ecc_enable hw false = (-110, sbpiCmdSeq false ++ []) := by
          simp [px30_otp_ecc_enable, wait_fail _ _ hS]
        have ht : (px30_otp_read hw o n val).trace
            = Ev.clkEn :: [Ev.rstAssert, Ev.rstDeassert] ++ (sbpiCmdSeq false ++ [])
              ++ [Ev.clkDis] := by
          simp [px30_otp_read, hclk, hre, hecc]
        refine ⟨Or.inr ?_, Or.inr ?_, Or.inr (Or.inl ?_)⟩ <;>
          simp [ht, clkEvents, rstEvents, userSelEvents, sbpiCmdSeq, isClkEv, isRstEv,
            isSelEv, OTPC_SBPI_CTRL, OTPC_SBPI_CMD_VALID_PRE, OTPC_SBPI_CMD0_OFFSET,
            OTPC_SBPI_CMD1_OFFSET, OTPC_USER_CTRL]
      · have hecc : px30_otp_ecc_enable hw false
            = (0, sbpiCmdSeq false ++ [Ev.wr OTPC_INT_STATUS OTPC_SBPI_DONE]) := by
          simp [px30_otp_ecc_enable, wait_ok _ _ hS]
        have hn := filters_nil_of_inner _ (px30_loop_inner hw n o 0)
        simp only [clkEvents, rstEvents, memEvents, userSelEvents] at hn
        have ht : (px30_otp_read hw o n val).trace
            = Ev.clkEn :: [Ev.rstAssert, Ev.rstDeassert]
              ++ (sbpiCmdSeq false ++ [Ev.wr OTPC_INT_STATUS OTPC_SBPI_DONE])
              ++ Ev.wr OTPC_USER_CTRL (OTPC_USE_USER ||| OTPC_USE_USER_MASK)
                :: (px30_otp_read_loop hw n o 0).2.2
              ++ [Ev.wr OTPC_USER_CTRL OTPC_USE_USER_MASK, Ev.clkDis] := by
          simp [px30_otp_read, hclk, hre, hecc]
        refine ⟨Or.inr ?_, Or.inr ?_, Or.inr (Or.inr ?_)⟩ <;>
          simp [ht, clkEvents, rstEvents, userSelEvents, sbpiCmdSeq, List.filter_append,
            hn.1, hn.2.1, hn.2.2.2, isClkEv, isRstEv, isSelEv, OTPC_SBPI_CTRL,
            OTPC_SBPI_CMD_VALID_PRE, OTPC_SBPI_CMD0_OFFSET, OTPC_SBPI_CMD1_OFFSET,
            OTPC_INT_STATUS, OTPC_USER_CTRL]
    · have hre : rockchip_otp_reset hw = (hw.rstAssertRet, []) := by
        simp [rockchip_otp_reset, hrA]
      have ht : (px30_otp_read hw o n val).trace = Ev.clkEn :: [] ++ [Ev.clkDis] := by
        simp [px30_otp_read, hclk, hre, hrA]
      refine ⟨Or.inr ?_, Or.inl ?_, Or.inr (Or.inl ?_)⟩ <;>
        simp [ht, clkEvents, rstEvents, userSelEvents, isClkEv, isRstEv, isSelEv]

lemma rk3568_balanced (hw : Hw) (o n : Nat) (val : List Nat) (hRD : hw.rstDeassertRet = 0) :
    (clkEvents (rk3568_otp_read hw o n val).trace = [] ∨
     clkEvents (rk3568_otp_read hw o n val).trace = [Ev.clkEn, Ev.clkDis]) ∧
    (rstEvents (rk3568_otp_read hw o n val).trace = [] ∨
     rstEvents (rk3568_otp_read hw o n val).trace = [Ev.rstAssert, Ev.rstDeassert]) ∧
    (memEvents (rk3568_otp_read hw o n val).trace = [] ∨
     memEvents (rk3568_otp_read hw o n val).trace = [Ev.alloc, Ev.free]) ∧
    (userSelEvents (rk3568_otp_read hw o n val).trace = [] ∨
     userSelEvents (rk3568_otp_read hw o n val).trace = [Ev.clkDis] ∨
     userSelEvents (rk3568_otp_read hw o n val).trace
       = [Ev.wr OTPC_USER_CTRL (OTPC_USE_USER ||| OTPC_USE_USER_MASK),
          Ev.wr OTPC_USER_CTRL OTPC_USE_USER_MASK, Ev.clkDis]) := by
  cases hal : hw.allocOk
  · have ht : (rk3568_otp_read hw o n val).trace = [] := by
      simp [rk3568_otp_read, hal]
    simp [ht, clkEvents, rstEvents, memEvents, userSelEvents]
  · by_cases hclk : hw.clkRet < 0
    · have ht : (rk3568_otp_read hw o n val).trace = [Ev.alloc, Ev.free] := by
        simp [rk3568_otp_read, hal, hclk]
      refine ⟨Or.inl ?_, Or.inl ?_, Or.inr ?_, Or.inl ?_⟩ <;>
        simp [ht, clkEvents, rstEvents, memEvents, userSelEvents, isClkEv, isRstEv,
          isMemEv, isSelEv]
    · by_cases hrA : hw.rstAssertRet = 0
      · have hre : rockchip_otp_reset hw = (0, [Ev.rstAssert, Ev.rstDeassert]) := by
          simp [rockchip_otp_reset, hrA, hRD]
        cases hS : pollOk hw.sbpiStat OTPC_SBPI_DONE
        · have hecc : px30_otp_ecc_enable hw true = (-110, sbpiCmdSeq true ++ []) := by
            simp [px30_otp_ecc_enable, wait_fail _ _ hS]
          have ht : (rk3568_otp_read hw o n val).trace
              = Ev.alloc :: Ev.clkEn :: [Ev.rstAssert, Ev.rstDeassert]
                ++ (sbpiCmdSeq true ++ []) ++ [Ev.clkDis, Ev.free] := by
            simp [rk3568_otp_read, hal, hclk, hre, hecc]
          refine ⟨Or.inr ?_, Or.inr ?_, Or.inr ?_, Or.inr (Or.inl ?_)⟩ <;>
            simp [ht, clkEvents, rstEvents, memEvents, userSelEvents, sbpiCmdSeq,
              isClkEv, isRstEv, isMemEv, isSelEv, OTPC_SBPI_CTRL,
              OTPC_SBPI_CMD_VALID_PRE, OTPC_SBPI_CMD0_OFFSET, OTPC_SBPI_CMD1_OFFSET,
              OTPC_USER_CTRL]
        · have hecc : px30_otp_ecc_enable hw true
              = (0, sbpiCmdSeq true ++ [Ev.wr OTPC_INT_STATUS OTPC_SBPI_DONE]) := by
            simp [px30_otp_ecc_enable, wait_ok _ _ hS]
          have hn := filters_nil_of_inner _
            (rk3568_loop_inner hw (rk3568_addr_len o n) (rk3568_addr_start o) 0)
          simp only [clkEvents, rstEvents, memEvents, userSelEvents] at hn
          have ht : (rk3568_otp_read hw o n val).trace
              = Ev.alloc :: Ev.clkEn :: [Ev.rstAssert, Ev.rstDeassert]
                ++ (sbpiCmdSeq true ++ [Ev.wr OTPC_INT_STATUS OTPC_SBPI_DONE])
                ++ Ev.wr OTPC_USER_CTRL (OTPC_USE_USER ||| OTPC_USE_USER_MASK)
                  :: (rk3568_otp_read_loop hw (rk3568_addr_len o n)
                      (rk3568_addr_start o) 0).2.2
                ++ [Ev.wr OTPC_USER_CTRL OTPC_USE_USER_MASK, Ev.clkDis, Ev.free] := by
            simp [rk3568_otp_read, hal, hclk, hre, hecc, apply_ite ReadOut.trace]
          refine ⟨Or.inr ?_, Or.inr ?_, Or.inr ?_, Or.inr (Or.inr ?_)⟩ <;>
            simp [ht, clkEvents, rstEvents, memEvents, userSelEvents, sbpiCmdSeq,
              List.filter_append, hn.1, hn.2.1, hn.2.2.1, hn.2.2.2, isClkEv, isRstEv,
              isMemEv, isSelEv, OTPC_SBPI_CTRL, OTPC_SBPI_CMD_VALID_PRE,
              OTPC_SBPI_CMD0_OFFSET, OTPC_SBPI_CMD1_OFFSET, OTPC_INT_STATUS,
              OTPC_USER_CTRL]
      · have hre : rockchip_otp_reset hw = (hw.rstAssertRet, []) := by
          simp [rockchip_otp_reset, hrA]
        have ht : (rk3568_otp_read hw o n val).trace
            = Ev.alloc :: Ev.clkEn :: [] ++ [Ev.clkDis, Ev.free] := by
          simp [rk3568_otp_read, hal, hclk, hre, hrA]
        refine ⟨Or.inr ?_, Or.inl ?_, Or.inr ?_, Or.inr (Or.inl ?_)⟩ <;>
          simp [ht, clkEvents, rstEvents, memEvents, userSelEvents, isClkEv, isRstEv,
            isMemEv, isSelEv]

lemma rk3588_balanced (hw : Hw) (o n : Nat) (val : List Nat) :
    (clkEvents (rk3588_otp_read hw o n val).trace = [] ∨
     clkEvents (rk3588_otp_read hw o n val).trace = [Ev.clkEn, Ev.clkDis]) ∧
    rstEvents (rk3588_otp_read hw o n val).trace = [] ∧
    (memEvents (rk3588_otp_read hw o n val).trace = [] ∨
     memEvents (rk3588_otp_read hw o n val).trace = [Ev.alloc, Ev.free]) := by
  by_cases hos : o ≥ hw.size
  · have ht : (rk3588_otp_read hw o n val).trace = [] := by
      simp [rk3588_otp_read, hos]
    simp [ht, clkEvents, rstEvents, memEvents]
  · cases hal : hw.allocOk
    · have ht : (rk3588_otp_read hw o n val).trace = [] := by
        simp [rk3588_otp_read, hos, hal]
      simp [ht, clkEvents, rstEvents, memEvents]
    · by_cases hclk : hw.clkRet < 0
      · have ht : (rk3588_otp_read hw o n val).trace = [Ev.alloc, Ev.free] := by
          simp [rk3588_otp_read, hos, hal, hclk]
        refine ⟨Or.inl ?_, ?_, Or.inr ?_⟩ <;>
          simp [ht, clkEvents, rstEvents, memEvents, isClkEv, isRstEv, isMemEv]
      · have hn := filters_nil_of_inner _
          (rk3588_loop_inner hw (rk3588_addr_len o (rk3588_clamp hw.size o n))
            (rk3588_addr_start0 o + RK3588_NO_SECURE_OFFSET) 0 hw.clkRet)
        simp only [clkEvents, rstEvents, memEvents, userSelEvents] at hn
        have ht : (rk3588_otp_read hw o n val).trace
            = Ev.alloc :: Ev.clkEn ::
                ((rk3588_otp_read_loop hw hw.clkRet
                  (rk3588_addr_len o (rk3588_clamp hw.size o n))
                  (rk3588_addr_start0 o + RK3588_NO_SECURE_OFFSET) 0).2.2
                ++ [Ev.clkDis, Ev.free]) := by
          simp [rk3588_otp_read, hos, hal, hclk, apply_ite ReadOut.trace]
        refine ⟨Or.inr ?_, ?_, Or.inr ?_⟩ <;>
          simp [ht, clkEvents, rstEvents, memEvents, List.filter_append, hn.1, hn.2.1,
            hn.2.2.1, isClkEv, isRstEv, isMemEv]

/-- Claim C6: on every exit path of every read (success, timeout, ECC
failure, reset failure, allocation failure): a clock-group enable that
succeeded is matched by exactly one disable; a successful reset assert is
matched by a deassert (whenever the deassert line itself works); the
scratch buffer, when allocated, is freed; and on GEN-A/GEN-B the
user-interface selection bit set before the loop is cleared before the
clocks are disabled (the projection of the trace onto user-control writes
and clock disables is `[]`, `[clkDis]`, or `[set, clear, clkDis]`). -/
theorem claim_C6_balanced_release (hw : Hw) (o n : Nat) (val : List Nat)
    (hRD : hw.rstDeassertRet = 0) :
    ((clkEvents (px30_otp_read hw o n val).trace = [] ∨
      clkEvents (px30_otp_read hw o n val).trace = [Ev.clkEn, Ev.clkDis]) ∧
     (rstEvents (px30_otp_read hw o n val).trace = [] ∨
      rstEvents (px30_otp_read hw o n val).trace = [Ev.rstAssert, Ev.rstDeassert]) ∧
     (userSelEvents (px30_otp_read hw o n val).trace = [] ∨
      userSelEvents (px30_otp_read hw o n val).trace = [Ev.clkDis] ∨
      userSelEvents (px30_otp_read hw o n val).trace
        = [Ev.wr OTPC_USER_CTRL (OTPC_USE_USER ||| OTPC_USE_USER_MASK),
           Ev.wr OTPC_USER_CTRL OTPC_USE_USER_MASK, Ev.clkDis])) ∧
    ((clkEvents (rk3568_otp_read hw o n val).trace = [] ∨
      clkEvents (rk3568_otp_read hw o n val).trace = [Ev.clkEn, Ev.clkDis]) ∧
     (rstEvents (rk3568_otp_read hw o n val).trace = [] ∨
      rstEvents (rk3568_otp_read hw o n val).trace = [Ev.rstAssert, Ev.rstDeassert]) ∧
     (memEvents (rk3568_otp_read hw o n val).trace = [] ∨
      memEvents (rk3568_otp_read hw o n val).trace = [Ev.alloc, Ev.free]) ∧
     (userSelEvents (rk3568_otp_read hw o n val).trace = [] ∨
      userSelEvents (rk3568_otp_read hw o n val).trace = [Ev.clkDis] ∨
      userSelEvents (rk3568_otp_read hw o n val).trace
        = [Ev.wr OTPC_USER_CTRL (OTPC_USE_USER ||| OTPC_USE_USER_MASK),
           Ev.wr OTPC_USER_CTRL OTPC_USE_USER_MASK, Ev.clkDis])) ∧
    ((clkEvents (rk3588_otp_read hw o n val).trace = [] ∨
      clkEvents (rk3588_otp_read hw o n val).trace = [Ev.clkEn, Ev.clkDis]) ∧
     rstEvents (rk3588_otp_read hw o n val).trace = [] ∧
     (memEvents (rk3588_otp_read hw o n val).trace = [] ∨
      memEvents (rk3588_otp_read hw o n val).trace = [Ev.alloc, Ev.free])) :=
  ⟨px30_balanced hw o n val hRD, rk3568_balanced hw o n val hRD,
   rk3588_balanced hw o n val⟩

/-- Witness for C6 on the concrete no-failure oracle (all three reads
take their success path: clocks enabled and disabled once, reset
asserted and deasserted once where used, scratch freed, selection bit
set then cleared before the clock disable). -/
theorem claim_C6_balanced_release_witness :
    ((clkEvents (px30_otp_read hwGood 2 3 [0, 0, 0]).trace = [] ∨
      clkEvents (px30_otp_read hwGood 2 3 [0, 0, 0]).trace = [Ev.clkEn, Ev.clkDis]) ∧
     (rstEvents (px30_otp_read hwGood 2 3 [0, 0, 0]).trace = [] ∨
      rstEvents (px30_otp_read hwGood 2 3 [0, 0, 0]).trace
        = [Ev.rstAssert, Ev.rstDeassert]) ∧
     (userSelEvents (px30_otp_read hwGood 2 3 [0, 0, 0]).trace = [] ∨
      userSelEvents (px30_otp_read hwGood 2 3 [0, 0, 0]).trace = [Ev.clkDis] ∨
      userSelEvents (px30_otp_read hwGood 2 3 [0, 0, 0]).trace
        = [Ev.wr OTPC_USER_CTRL (OTPC_USE_USER ||| OTPC_USE_USER_MASK),
           Ev.wr OTPC_USER_CTRL OTPC_USE_USER_MASK, Ev.clkDis])) ∧
    ((clkEvents (rk3568_otp_read hwGood 2 3 [0, 0, 0]).trace = [] ∨
      clkEvents (rk3568_otp_read hwGood 2 3 [0, 0, 0]).trace = [Ev.clkEn, Ev.clkDis]) ∧
     (rstEvents (rk3568_otp_read hwGood 2 3 [0, 0, 0]).trace = [] ∨
      rstEvents (rk3568_otp_read hwGood 2 3 [0, 0, 0]).trace
        = [Ev.rstAssert, Ev.rstDeassert]) ∧
     (memEvents (rk3568_otp_read hwGood 2 3 [0, 0, 0]).trace = [] ∨
      memEvents (rk3568_otp_read hwGood 2 3 [0, 0, 0]).trace = [Ev.alloc, Ev.free]) ∧
     (userSelEvents (rk3568_otp_read hwGood 2 3 [0, 0, 0]).trace = [] ∨
      userSelEvents (rk3568_otp_read hwGood 2 3 [0, 0, 0]).trace = [Ev.clkDis] ∨
      userSelEvents (rk3568_otp_read hwGood 2 3 [0, 0, 0]).trace
        = [Ev.wr OTPC_USER_CTRL (OTPC_USE_USER ||| OTPC_USE_USER_MASK),
           Ev.wr OTPC_USER_CTRL OTPC_USE_USER_MASK, Ev.clkDis])) ∧
    ((clkEvents (rk3588_otp_read hwGood 2 3 [0, 0, 0]).trace = [] ∨
      clkEvents (rk3588_otp_read hwGood 2 3 [0, 0, 0]).trace = [Ev.clkEn, Ev.clkDis]) ∧
     rstEvents (rk3588_otp_read hwGood 2 3 [0, 0, 0]).trace = [] ∧
     (memEvents (rk3588_otp_read hwGood 2 3 [0, 0, 0]).trace = [] ∨
      memEvents (rk3588_otp_read hwGood 2 3 [0, 0, 0]).trace = [Ev.alloc, Ev.free])) :=
  claim_C6_balanced_release hwGood 2 3 [0, 0, 0] rfl

end RockchipOtp
